import Mathlib

/-!
# Verification of the optiqal lifecycle/Markov QALY simulation engine

A shallow embedding of the core of the `optiqal` Python package
(`optiqal/lifecycle.py`, `optiqal/confounding.py`, `optiqal/profile.py`,
`optiqal/markov.py`, `optiqal/simulate.py`, and the baseline precomputation
script `scripts/precompute_baselines.py`), together with proofs and
refutations of stated properties of that code.

Conventions of the embedding:

* Python floats are idealised as real numbers `ℝ`; the log-linear life-table
  interpolation uses `Real.exp`/`Real.log`, so the lifecycle definitions are
  `noncomputable`.  The confounding-prior arithmetic is exact rational
  arithmetic and stays in `ℚ`.
* Stochastic code is derandomised: a NumPy generator is replaced by explicit
  streams of draws (`ℕ → ℝ`), exactly as the paired Markov simulation itself
  pre-generates one uniform array per condition plus one for mortality.
* Python loops with `break` are modelled by fuel-indexed structural recursion
  (`runBreak`, `armRun`); the fuel is the exact iteration count of the
  corresponding `range(...)`.
* `CONDITION_DECREMENTS` is imported by `markov.py` from `lifecycle.py` but is
  not defined anywhere in the source tree; it is kept as an explicit parameter
  `dec : Cond → ℝ` (see the doc comment at its use site).
* The precomputed baseline table `data/baselines.json` is not in the source
  tree, but the script that generates it is; `get_precomputed_baseline_qalys`
  is embedded through that script (including its `round(·, 3)`).
-/

namespace Optiqal

/-- Biological sex, the key into the CDC life table. -/
inductive Sex where
  | male
  | female
deriving DecidableEq

/-- Age-indexed cause-of-death fractions, the value type of `CAUSE_FRACTIONS`. -/
structure CauseFrac where
  cvd : ℝ
  cancer : ℝ
  other : ℝ

/-!
## Interpolation (`interpolate_table`, `get_cause_fraction`, `get_quality_weight`)

All the age-indexed tables in the source are sparse sorted anchor maps walked
the same way: clamp below the first anchor, clamp above the last anchor, and
otherwise apply an interpolation kernel to the bracketing pair of anchors.
`interpolate_table` is that shared walk, parameterised by the kernel.
-/

/-- The scanning part of the anchor walk: `la`/`lv` is the anchor last passed,
`rest` the remaining anchors in ascending age order. -/
noncomputable def interpAux {α : Type} (kernel : ℝ → α → ℝ → α → ℝ → α) :
    ℝ → α → List (ℝ × α) → ℝ → α
  | _, lv, [], _ => lv
  | la, lv, (ua, uv) :: rest, age =>
    if age < ua then kernel la lv ua uv age else interpAux kernel ua uv rest age

/-- The full anchor walk: clamp to the first anchor value for ages at or below
the first anchor age, otherwise scan (`dflt` is only reached on an empty
table, which never occurs for the concrete tables below). -/
noncomputable def interpolate_table {α : Type} (kernel : ℝ → α → ℝ → α → ℝ → α) (dflt : α)
    (table : List (ℝ × α)) (age : ℝ) : α :=
  match table with
  | [] => dflt
  | (a0, v0) :: rest => if age ≤ a0 then v0 else interpAux kernel a0 v0 rest age

/-- Log-linear interpolation kernel of `interpolate_table` in `lifecycle.py`:
interpolate on the log scale when both endpoint values are positive, otherwise
fall back to linear interpolation. -/
noncomputable def loglinKernel (la lv ua uv age : ℝ) : ℝ :=
  let fraction := (age - la) / (ua - la)
  if 0 < lv ∧ 0 < uv then
    Real.exp (Real.log lv + fraction * (Real.log uv - Real.log lv))
  else
    lv + fraction * (uv - lv)

/-- Plain linear interpolation kernel (`get_quality_weight`,
`get_incidence_rate`, `get_prevalence`). -/
noncomputable def linKernel (la lv ua uv age : ℝ) : ℝ :=
  lv + ((age - la) / (ua - la)) * (uv - lv)

/-- Componentwise linear interpolation of cause-of-death fractions
(`get_cause_fraction` interpolates the three dict entries with the same
fraction). -/
noncomputable def cfKernel (la : ℝ) (lv : CauseFrac) (ua : ℝ) (uv : CauseFrac)
    (age : ℝ) : CauseFrac :=
  ⟨lv.cvd + ((age - la) / (ua - la)) * (uv.cvd - lv.cvd),
   lv.cancer + ((age - la) / (ua - la)) * (uv.cancer - lv.cancer),
   lv.other + ((age - la) / (ua - la)) * (uv.other - lv.other)⟩

/-!
## Life-table substrate (`lifecycle.py` module constants)
-/

/-- `CDC_LIFE_TABLE["male"]`: annual probability of death (qx) by age. -/
def CDC_LIFE_TABLE_male : List (ℝ × ℝ) :=
  [(0, 0.00566), (1, 0.00039), (5, 0.00012), (10, 0.00011), (15, 0.00050),
   (20, 0.00129), (25, 0.00156), (30, 0.00175), (35, 0.00209), (40, 0.00261),
   (45, 0.00369), (50, 0.00547), (55, 0.00832), (60, 0.01206), (65, 0.01697),
   (70, 0.02467), (75, 0.03711), (80, 0.05640), (85, 0.08737), (90, 0.13510),
   (95, 0.19853), (100, 0.27500)]

/-- `CDC_LIFE_TABLE["female"]`. -/
def CDC_LIFE_TABLE_female : List (ℝ × ℝ) :=
  [(0, 0.00476), (1, 0.00031), (5, 0.00010), (10, 0.00009), (15, 0.00025),
   (20, 0.00047), (25, 0.00059), (30, 0.00073), (35, 0.00096), (40, 0.00136),
   (45, 0.00204), (50, 0.00310), (55, 0.00469), (60, 0.00692), (65, 0.01019),
   (70, 0.01556), (75, 0.02502), (80, 0.04085), (85, 0.06837), (90, 0.11295),
   (95, 0.17639), (100, 0.25500)]

/-- `CDC_LIFE_TABLE[sex]`. -/
def CDC_LIFE_TABLE : Sex → List (ℝ × ℝ)
  | .male => CDC_LIFE_TABLE_male
  | .female => CDC_LIFE_TABLE_female

/-- `CAUSE_FRACTIONS`: age-varying cause-of-death fractions. -/
def CAUSE_FRACTIONS : List (ℝ × CauseFrac) :=
  [(40, ⟨0.20, 0.25, 0.55⟩), (50, ⟨0.25, 0.35, 0.40⟩), (60, ⟨0.30, 0.35, 0.35⟩),
   (70, ⟨0.35, 0.30, 0.35⟩), (80, ⟨0.40, 0.20, 0.40⟩), (90, ⟨0.45, 0.12, 0.43⟩)]

/-- `QUALITY_WEIGHTS`: age-varying quality weights. -/
def QUALITY_WEIGHTS : List (ℝ × ℝ) :=
  [(25, 0.92), (35, 0.90), (45, 0.88), (55, 0.85), (65, 0.82), (75, 0.78),
   (85, 0.72), (95, 0.65)]

/-- `get_mortality_rate(age, sex)`: log-linearly interpolated annual mortality
probability. -/
noncomputable def get_mortality_rate (age : ℝ) (sex : Sex) : ℝ :=
  interpolate_table loglinKernel 0 (CDC_LIFE_TABLE sex) age

/-- `get_cause_fraction(age)`: linearly interpolated cause-of-death fractions. -/
noncomputable def get_cause_fraction (age : ℝ) : CauseFrac :=
  interpolate_table cfKernel ⟨0, 0, 0⟩ CAUSE_FRACTIONS age

/-- `get_quality_weight(age)`: linearly interpolated quality weight. -/
noncomputable def get_quality_weight (age : ℝ) : ℝ :=
  interpolate_table linKernel 0 QUALITY_WEIGHTS age

/-!
## Loop combinator

Python's `for year in range(n): body; if cond: break` as fuel-indexed
recursion: run the body for year `year`, stop if the condition holds on the
updated state, otherwise continue with the next year.
-/

/-- Run `step` for at most `fuel` more iterations starting at year `year`,
breaking after any iteration whose resulting state satisfies `stop`. -/
noncomputable def runBreak {σ : Type} (step : ℕ → σ → σ) (stop : σ → Prop)
    [∀ s, Decidable (stop s)] : ℕ → ℕ → σ → σ
  | 0, _, s => s
  | fuel + 1, year, s =>
    let s' := step year s
    if stop s' then s' else runBreak step stop fuel (year + 1) s'

/-!
## Deterministic lifecycle integrator (`lifecycle.py`)
-/

/-- `PathwayHRs`: pathway-specific hazard ratios. -/
structure PathwayHRs where
  cvd : ℝ
  cancer : ℝ
  other : ℝ

/-- `LifecycleResult`: result of a lifecycle QALY calculation
(`pathway_contributions` dict flattened into three fields). -/
structure LifecycleResult where
  baseline_qalys : ℝ
  intervention_qalys : ℝ
  qaly_gain : ℝ
  life_years_gained : ℝ
  pathway_cvd : ℝ
  pathway_cancer : ℝ
  pathway_other : ℝ
  discount_rate : ℝ

/-- The constructor arguments of `LifecycleModel`. -/
structure LifecycleModel where
  start_age : ℤ
  sex : Sex
  discount_rate : ℝ
  max_age : ℤ
  use_precomputed : Bool
  baseline_mortality_multiplier : ℝ

/-- The multiplier-adjusted, capped baseline mortality probability of one model
year (`base_qx = min(get_mortality_rate(age, sex) * multiplier, 0.99)`). -/
noncomputable def baselineQx (m : LifecycleModel) (age : ℝ) : ℝ :=
  min (get_mortality_rate age m.sex * m.baseline_mortality_multiplier) 0.99

/-- The intervention-year mortality probability of `LifecycleModel.calculate`:
the adjusted baseline rate weighted by cause fractions and pathway hazard
ratios.  Note: the source applies no cap here. -/
noncomputable def interventionQx (m : LifecycleModel) (hrs : PathwayHRs) (age : ℝ) : ℝ :=
  let cf := get_cause_fraction age
  baselineQx m age * (cf.cvd * hrs.cvd + cf.cancer * hrs.cancer + cf.other * hrs.other)

/-- State of the full-computation baseline loop of `calculate`
(`baseline_survival`, `baseline_qalys`, `baseline_life_years`). -/
structure BaselineState where
  surv : ℝ
  qalys : ℝ
  ly : ℝ

/-- One year of the full-computation baseline loop of `calculate`. -/
noncomputable def LifecycleModel.fullBaselineStep (m : LifecycleModel) (year : ℕ)
    (s : BaselineState) : BaselineState :=
  let age : ℝ := (m.start_age : ℝ) + year
  let base_qx := baselineQx m age
  let quality := get_quality_weight age
  let discount := 1 / (1 + m.discount_rate) ^ year
  ⟨s.surv * (1 - base_qx), s.qalys + s.surv * quality * discount, s.ly + s.surv⟩

/-- State of the fast-path life-years loop of `calculate` (used when precomputed
baseline QALYs are available; note the source applies neither the multiplier
nor the 0.99 cap there). -/
structure FastState where
  surv : ℝ
  ly : ℝ

/-- One year of the fast-path life-years loop of `calculate`. -/
noncomputable def LifecycleModel.fastLYStep (m : LifecycleModel) (year : ℕ)
    (s : FastState) : FastState :=
  let age : ℝ := (m.start_age : ℝ) + year
  let base_qx := get_mortality_rate age m.sex
  ⟨s.surv * (1 - base_qx), s.ly + s.surv⟩

/-- State of the intervention loop of `calculate`: the two survival curves,
the intervention accumulators and the three pathway contributions. -/
structure PairState where
  bsurv : ℝ
  isurv : ℝ
  iq : ℝ
  ily : ℝ
  ccvd : ℝ
  ccan : ℝ
  coth : ℝ

/-- One year of the intervention loop of `calculate`, including the pathway
contribution tracking (distributed only for years with a positive QALY
difference and positive total mortality-rate reduction). -/
noncomputable def LifecycleModel.pairStep (m : LifecycleModel) (hrs : PathwayHRs)
    (year : ℕ) (s : PairState) : PairState :=
  let age : ℝ := (m.start_age : ℝ) + year
  let base_qx := baselineQx m age
  let cf := get_cause_fraction age
  let quality := get_quality_weight age
  let discount := 1 / (1 + m.discount_rate) ^ year
  let baseline_qaly := s.bsurv * quality * discount
  let int_qx := base_qx * (cf.cvd * hrs.cvd + cf.cancer * hrs.cancer + cf.other * hrs.other)
  let int_qaly := s.isurv * quality * discount
  let qaly_diff := int_qaly - baseline_qaly
  let total_reduction :=
    cf.cvd * (1 - hrs.cvd) + cf.cancer * (1 - hrs.cancer) + cf.other * (1 - hrs.other)
  ⟨s.bsurv * (1 - base_qx),
   s.isurv * (1 - int_qx),
   s.iq + int_qaly,
   s.ily + s.isurv,
   if 0 < qaly_diff ∧ 0 < total_reduction then
     s.ccvd + qaly_diff * (cf.cvd * (1 - hrs.cvd)) / total_reduction
   else s.ccvd,
   if 0 < qaly_diff ∧ 0 < total_reduction then
     s.ccan + qaly_diff * (cf.cancer * (1 - hrs.cancer)) / total_reduction
   else s.ccan,
   if 0 < qaly_diff ∧ 0 < total_reduction then
     s.coth + qaly_diff * (cf.other * (1 - hrs.other)) / total_reduction
   else s.coth⟩

/-!
## Precomputed baselines

`data/baselines.json` is generated by `scripts/precompute_baselines.py` for
every integer age 0–100 and both sexes with the default 3% discount rate, and
stores `round(calculate_remaining_qalys(age, sex), 3)`.  The lookup
`get_precomputed_baseline_qalys` is embedded through that generating script.
-/

/-- State of the loop of `calculate_remaining_qalys` in
`scripts/precompute_baselines.py`. -/
structure ScriptState where
  surv : ℝ
  qalys : ℝ

/-- One year of `calculate_remaining_qalys` (no multiplier, no cap). -/
noncomputable def remainingQalysStep (start_age : ℤ) (sex : Sex) (r : ℝ)
    (year : ℕ) (s : ScriptState) : ScriptState :=
  let age : ℝ := (start_age : ℝ) + year
  let qx := get_mortality_rate age sex
  let quality := get_quality_weight age
  let discount := 1 / (1 + r) ^ year
  ⟨s.surv * (1 - qx), s.qalys + s.surv * quality * discount⟩

/-- `calculate_remaining_qalys(start_age, sex, discount_rate, max_age=100)` from
`scripts/precompute_baselines.py`. -/
noncomputable def calculate_remaining_qalys (start_age : ℤ) (sex : Sex) (r : ℝ)
    (max_age : ℤ) : ℝ :=
  (runBreak (remainingQalysStep start_age sex r) (fun s => s.surv < 0.001)
    (max_age - start_age).toNat 0 ⟨1, 0⟩).qalys

/-- Python's `round(x, 3)` as used when the baselines file is written.  Python
rounds half to even while Mathlib's `round` rounds half up; they differ only at
exact half-thousandth ties, and every proof below uses only
`|round3 x - x| ≤ 1/2000`, which holds for either convention. -/
noncomputable def round3 (x : ℝ) : ℝ := (round (1000 * x) : ℤ) / 1000

/-- `get_precomputed_baseline_qalys(age, sex)`: `None` outside 0–100, otherwise
the stored (3-decimal-rounded) remaining discounted QALYs generated by the
precompute script at the default 3% discount rate. -/
noncomputable def get_precomputed_baseline_qalys (age : ℤ) (sex : Sex) : Option ℝ :=
  if age < 0 ∨ 100 < age then none
  else some (round3 (calculate_remaining_qalys age sex 0.03 100))

/-- The `_precomputed_baseline_qalys` attribute set by the `LifecycleModel`
constructor: populated only with `use_precomputed`, the default 3% discount
rate and no baseline mortality adjustment. -/
noncomputable def LifecycleModel.precomputedBaselineQalys (m : LifecycleModel) : Option ℝ :=
  if m.use_precomputed = true ∧ m.discount_rate = 0.03 ∧ m.baseline_mortality_multiplier = 1 then
    get_precomputed_baseline_qalys m.start_age m.sex
  else none

/-- `LifecycleModel.calculate(pathway_hrs)`. -/
noncomputable def LifecycleModel.calculate (m : LifecycleModel) (hrs : PathwayHRs) :
    LifecycleResult :=
  let n := (m.max_age - m.start_age).toNat
  let pair := runBreak (m.pairStep hrs) (fun s => s.bsurv < 0.001 ∧ s.isurv < 0.001)
    n 0 ⟨1, 1, 0, 0, 0, 0, 0⟩
  match m.precomputedBaselineQalys with
  | some v =>
    let fast := runBreak m.fastLYStep (fun s => s.surv < 0.001) n 0 ⟨1, 0⟩
    ⟨v, pair.iq, pair.iq - v, pair.ily - fast.ly,
     pair.ccvd, pair.ccan, pair.coth, m.discount_rate⟩
  | none =>
    let base := runBreak m.fullBaselineStep (fun s => s.surv < 0.001) n 0 ⟨1, 0, 0⟩
    ⟨base.qalys, pair.iq, pair.iq - base.qalys, pair.ily - base.ly,
     pair.ccvd, pair.ccan, pair.coth, m.discount_rate⟩

/-!
## Confounding model (`confounding.py`)

The Beta-prior bookkeeping is exact rational arithmetic and stays in `ℚ`;
only `adjust_hr` (an exp/log transform) lives in `ℝ`.
-/

/-- The eight intervention categories of `Intervention.category`. -/
inductive Category where
  | exercise
  | diet
  | sleep
  | stress
  | substance
  | medical
  | social
  | other
deriving DecidableEq, Fintype

/-- The evidence types enumerated in `EVIDENCE_ADJUSTMENTS` (any other string
falls back to multiplier 1.0 in the source, i.e. behaves like `review`). -/
inductive EvidenceType where
  | meta_analysis
  | rct
  | cohort
  | case_control
  | review
  | other
deriving DecidableEq, Fintype

/-- `ConfoundingPrior`: a Beta(alpha, beta) prior over the causal fraction. -/
structure ConfoundingPrior where
  alpha : ℚ
  beta : ℚ
  rationale : String
  calibration_sources : List String
deriving DecidableEq

/-- `ConfoundingPrior.mean = alpha / (alpha + beta)`. -/
def ConfoundingPrior.mean (p : ConfoundingPrior) : ℚ := p.alpha / (p.alpha + p.beta)

/-- `ConfoundingPrior.variance`. -/
def ConfoundingPrior.variance (p : ConfoundingPrior) : ℚ :=
  (p.alpha * p.beta) / ((p.alpha + p.beta) ^ 2 * (p.alpha + p.beta + 1))

/-- `CATEGORY_PRIORS` (rationale strings abridged to their calibration core). -/
def CATEGORY_PRIORS : Category → ConfoundingPrior
  | .exercise => ⟨1.2, 6.0,
      "CALIBRATED: RCTs show exercise does not reduce mortality. Beta(1.2, 6.0), mean 17%",
      ["Ballin et al. 2021", "Finnish Twin Cohort 2024", "Mendelian randomization studies"]⟩
  | .diet => ⟨3.0, 3.0,
      "CALIBRATED: PREDIMED RCT confirms 30% CVD reduction. Beta(3.0, 3.0), mean 50%",
      ["PREDIMED Trial 2018", "Aune et al. 2016"]⟩
  | .sleep => ⟨1.5, 4.5,
      "No RCTs for sleep duration and mortality. Beta(1.5, 4.5), mean 25%",
      ["Cappuccio et al. 2010", "No mortality RCTs available"]⟩
  | .stress => ⟨1.2, 5.0,
      "Meditation RCTs show much smaller effects than observational. Beta(1.2, 5.0), mean 19%",
      ["Goyal et al. 2014", "Khoury et al. 2015"]⟩
  | .substance => ⟨2.0, 4.0,
      "CALIBRATED: smoking cessation RCT-backed, alcohol J-curve confounded. Beta(2.0, 4.0), mean 33%",
      ["Taylor et al. 2014", "Stockwell et al. 2016"]⟩
  | .medical => ⟨2.5, 4.0,
      "CALIBRATED: even RCT-based drugs show observational inflation. Beta(2.5, 4.0), mean 38%",
      ["Danaei et al. 2012", "ARRIVE/ASPREE trials"]⟩
  | .social => ⟨1.0, 5.5,
      "Social relationships heavily confounded. Beta(1.0, 5.5), mean 15%",
      ["Holt-Lunstad et al. 2010"]⟩
  | .other => ⟨1.2, 4.8,
      "Unknown intervention type; conservative prior. Beta(1.2, 4.8), mean 20%",
      []⟩

/-- `EVIDENCE_ADJUSTMENTS`: multipliers on alpha per evidence type. -/
def EVIDENCE_ADJUSTMENTS : EvidenceType → ℚ
  | .meta_analysis => 1.1
  | .rct => 1.5
  | .cohort => 0.8
  | .case_control => 0.7
  | .review => 1.0
  | .other => 0.9

/-- Display name of an evidence type (for the adjusted rationale text). -/
def evidenceTypeName : EvidenceType → String
  | .meta_analysis => "meta-analysis"
  | .rct => "rct"
  | .cohort => "cohort"
  | .case_control => "case-control"
  | .review => "review"
  | .other => "other"

/-- `get_confounding_prior(category, evidence_type)`: the per-category base
prior, with alpha scaled by the evidence-type multiplier when an evidence type
is supplied. -/
def get_confounding_prior (category : Category) (evidence_type : Option EvidenceType) :
    ConfoundingPrior :=
  let base := CATEGORY_PRIORS category
  match evidence_type with
  | none => base
  | some et =>
    ⟨base.alpha * EVIDENCE_ADJUSTMENTS et, base.beta,
     base.rationale ++ " Adjusted for " ++ evidenceTypeName et ++ ".",
     base.calibration_sources⟩

/-- `adjust_hr(observed_hr, causal_fraction) = exp(causal_fraction * log(observed_hr))`. -/
noncomputable def adjust_hr (observed_hr causal_fraction : ℝ) : ℝ :=
  Real.exp (causal_fraction * Real.log observed_hr)

/-!
## Profile risk model (`profile.py`)
-/

/-- `Profile.bmi_category`. -/
inductive BMICategory where
  | normal
  | overweight
  | obese
  | severely_obese
deriving DecidableEq, Fintype

/-- `Profile.smoking_status`. -/
inductive SmokingStatus where
  | never
  | former
  | current
deriving DecidableEq, Fintype

/-- `Profile.activity_level`. -/
inductive ActivityLevel where
  | sedentary
  | light
  | moderate
  | active
deriving DecidableEq, Fintype

/-- `Profile`: demographic profile for QALY calculation. -/
structure Profile where
  age : ℤ
  sex : Sex
  bmi_category : BMICategory
  smoking_status : SmokingStatus
  has_diabetes : Bool
  has_hypertension : Bool
  activity_level : ActivityLevel

/-- `BMI_MORTALITY_RR`. -/
noncomputable def BMI_MORTALITY_RR : BMICategory → ℝ
  | .normal => 1.0
  | .overweight => 1.11
  | .obese => 1.44
  | .severely_obese => 2.06

/-- `SMOKING_MORTALITY_RR`. -/
noncomputable def SMOKING_MORTALITY_RR : SmokingStatus → ℝ
  | .never => 1.0
  | .former => 1.34
  | .current => 2.80

/-- `DIABETES_MORTALITY_RR`. -/
noncomputable def DIABETES_MORTALITY_RR : ℝ := 1.80

/-- `HYPERTENSION_MORTALITY_RR`. -/
noncomputable def HYPERTENSION_MORTALITY_RR : ℝ := 1.50

/-- `ACTIVITY_MORTALITY_RR`. -/
noncomputable def ACTIVITY_MORTALITY_RR : ActivityLevel → ℝ
  | .sedentary => 1.40
  | .light => 1.15
  | .moderate => 1.00
  | .active => 0.90

/-- `get_baseline_mortality_multiplier(profile)`: the product of the five
relative risks (multiplicative model). -/
noncomputable def get_baseline_mortality_multiplier (p : Profile) : ℝ :=
  BMI_MORTALITY_RR p.bmi_category * SMOKING_MORTALITY_RR p.smoking_status *
    (if p.has_diabetes then DIABETES_MORTALITY_RR else 1.0) *
    (if p.has_hypertension then HYPERTENSION_MORTALITY_RR else 1.0) *
    ACTIVITY_MORTALITY_RR p.activity_level

/-- The per-activity-level modifier of exercise interventions. -/
noncomputable def exerciseActivityModifier : ActivityLevel → ℝ
  | .sedentary => 1.20
  | .light => 1.00
  | .moderate => 0.60
  | .active => 0.30

/-- `get_intervention_modifier(profile, intervention_category)`.  The source
also has branches for the strings "smoking", "alcohol" and "supplement", which
are unreachable for the eight `Intervention.category` literals and therefore
have no counterpart here. -/
noncomputable def get_intervention_modifier (p : Profile) (category : Category) : ℝ :=
  match category with
  | .exercise =>
    ((1.0 * exerciseActivityModifier p.activity_level) *
        (if p.bmi_category = .obese ∨ p.bmi_category = .severely_obese then 1.15 else 1) *
        (if 70 < p.age then 0.90 else 1)) *
      (if p.has_hypertension then 1.10 else 1)
  | .diet =>
    ((1.0 * (if p.bmi_category = .obese ∨ p.bmi_category = .severely_obese then 1.20 else 1)) *
        (if p.has_diabetes then 1.15 else 1)) *
      (if p.has_hypertension then 1.10 else 1)
  | .stress => 1.0 * (if p.activity_level = .sedentary then 1.15 else 1)
  | .sleep => 1.0 * (if p.activity_level = .sedentary then 1.10 else 1)
  | _ => 1.0

/-!
## Markov state-transition simulator (`markov.py`)

Randomness is derandomised: `simulate_lifetime_paired` pre-generates one
uniform array per condition (`condition_draws`) and one mortality array
(`mortality_draws`); those arrays are the parameters `cDraws : Cond → ℕ → ℝ`
and `mDraws : ℕ → ℝ`, shared by both arms of the pair.
-/

/-- The six tracked chronic conditions. -/
inductive Cond where
  | diabetes
  | hypertension
  | heart_disease
  | stroke
  | cancer
  | arthritis
deriving DecidableEq

/-- `INCIDENCE_RATES[condition]`: annual incidence anchors by age. -/
def INCIDENCE_RATES : Cond → List (ℝ × ℝ)
  | .diabetes =>
    [(30, 0.0023), (45, 0.0071), (55, 0.0093), (65, 0.0104), (75, 0.0083), (85, 0.0063)]
  | .hypertension =>
    [(30, 0.0083), (45, 0.0158), (55, 0.0265), (65, 0.0414), (75, 0.0302), (85, 0.0451)]
  | .heart_disease =>
    [(30, 0.0006), (45, 0.0030), (55, 0.0071), (65, 0.0107), (75, 0.0160), (85, 0.0171)]
  | .stroke =>
    [(30, 0.0002), (45, 0.0015), (55, 0.0026), (65, 0.0061), (75, 0.0070), (85, 0.0104)]
  | .cancer =>
    [(30, 0.0013), (45, 0.0033), (55, 0.0079), (65, 0.0110), (75, 0.0226), (85, 0.0184)]
  | .arthritis =>
    [(30, 0.0046), (45, 0.0154), (55, 0.0284), (65, 0.0428), (75, 0.0472), (85, 0.0462)]

/-- `CONDITION_MORTALITY_MULTIPLIERS`. -/
noncomputable def CONDITION_MORTALITY_MULTIPLIERS : Cond → ℝ
  | .diabetes => 1.8
  | .hypertension => 1.3
  | .heart_disease => 2.0
  | .stroke => 2.5
  | .cancer => 1.5
  | .arthritis => 1.1

/-- `get_incidence_rate(condition, age)`: linear interpolation over the sparse
age anchors, clamped at both ends. -/
noncomputable def get_incidence_rate (c : Cond) (age : ℝ) : ℝ :=
  interpolate_table linKernel 0 (INCIDENCE_RATES c) age

/-- `HealthState`: alive flag plus the six condition flags. -/
structure HealthState where
  alive : Bool
  diabetes : Bool
  hypertension : Bool
  heart_disease : Bool
  stroke : Bool
  cancer : Bool
  arthritis : Bool
deriving DecidableEq

/-- Read the flag of one condition (the `getattr(state, cond)` accesses). -/
def HealthState.getCond (s : HealthState) : Cond → Bool
  | .diabetes => s.diabetes
  | .hypertension => s.hypertension
  | .heart_disease => s.heart_disease
  | .stroke => s.stroke
  | .cancer => s.cancer
  | .arthritis => s.arthritis

/-- Set the flag of one condition (the `setattr(state, cond, True)` updates). -/
def HealthState.setCond (s : HealthState) : Cond → HealthState
  | .diabetes => { s with diabetes := true }
  | .hypertension => { s with hypertension := true }
  | .heart_disease => { s with heart_disease := true }
  | .stroke => { s with stroke := true }
  | .cancer => { s with cancer := true }
  | .arthritis => { s with arthritis := true }

/-- `HealthState.get_quality_decrement`: total quality decrement of the active
conditions.  `dec` stands for `CONDITION_DECREMENTS`, which `markov.py` imports
from `lifecycle.py`.

Modelled from the spec: `CONDITION_DECREMENTS` is not defined anywhere in the
source tree (only imported), and the spec fixes no numeric values — only that
per-year quality is "reduced by the sum of active conditions' quality
decrements, floored at 0.1".  The table is therefore kept as an explicit
parameter, and every theorem about the Markov simulator below holds for every
decrement table. -/
noncomputable def HealthState.get_quality_decrement (s : HealthState) (dec : Cond → ℝ) : ℝ :=
  (0 : ℝ) + (if s.diabetes then dec .diabetes else 0) +
    (if s.hypertension then dec .hypertension else 0) +
    (if s.heart_disease then dec .heart_disease else 0) +
    (if s.stroke then dec .stroke else 0) +
    (if s.cancer then dec .cancer else 0) +
    (if s.arthritis then dec .arthritis else 0)

/-- `HealthState.get_mortality_multiplier`: product of the multipliers of the
active conditions. -/
noncomputable def HealthState.get_mortality_multiplier (s : HealthState) : ℝ :=
  (1 : ℝ) * (if s.diabetes then CONDITION_MORTALITY_MULTIPLIERS .diabetes else 1) *
    (if s.hypertension then CONDITION_MORTALITY_MULTIPLIERS .hypertension else 1) *
    (if s.heart_disease then CONDITION_MORTALITY_MULTIPLIERS .heart_disease else 1) *
    (if s.stroke then CONDITION_MORTALITY_MULTIPLIERS .stroke else 1) *
    (if s.cancer then CONDITION_MORTALITY_MULTIPLIERS .cancer else 1) *
    (if s.arthritis then CONDITION_MORTALITY_MULTIPLIERS .arthritis else 1)

/-- `MarkovResult`: outcome of one simulated lifetime. -/
structure MarkovResult where
  qalys : ℝ
  life_years : ℝ
  death_age : ℤ
  conditions_acquired : Cond → Option ℤ

/-- Running state of one arm of `simulate_lifetime_paired`. -/
structure ArmState where
  state : HealthState
  qalys : ℝ
  life_years : ℝ
  acquired : Cond → Option ℤ

/-- The incidence check for one condition in one simulated year: acquire the
condition when it is absent and its shared uniform draw falls below the
age-specific incidence rate. -/
noncomputable def condUpdate (cDraws : Cond → ℕ → ℝ) (age : ℝ) (ageZ : ℤ) (year : ℕ)
    (p : HealthState × (Cond → Option ℤ)) (c : Cond) : HealthState × (Cond → Option ℤ) :=
  if p.1.getCond c = false ∧ cDraws c year < get_incidence_rate c age then
    (p.1.setCond c, fun c' => if c' = c then some ageZ else p.2 c')
  else p

/-- One simulated year of one arm of `simulate_lifetime_paired`: accrue the
discounted quality-adjusted year, run the six incidence checks in source
order, then the mortality check with threshold
`min(base_mortality * condition_multipliers * hr, 0.99)` against the shared
mortality draw. -/
noncomputable def pairedArmStep (start_age : ℤ) (sex : Sex) (hr r : ℝ) (dec : Cond → ℝ)
    (cDraws : Cond → ℕ → ℝ) (mDraws : ℕ → ℝ) (year : ℕ) (s : ArmState) : ArmState :=
  let age : ℝ := (start_age : ℝ) + year
  let ageZ : ℤ := start_age + year
  let discount := 1 / (1 + r) ^ year
  let quality := max 0.1 (get_quality_weight age - s.state.get_quality_decrement dec)
  let p0 := (s.state, s.acquired)
  let p1 := condUpdate cDraws age ageZ year p0 .diabetes
  let p2 := condUpdate cDraws age ageZ year p1 .hypertension
  let p3 := condUpdate cDraws age ageZ year p2 .heart_disease
  let p4 := condUpdate cDraws age ageZ year p3 .stroke
  let p5 := condUpdate cDraws age ageZ year p4 .cancer
  let p6 := condUpdate cDraws age ageZ year p5 .arthritis
  let mortality := min (get_mortality_rate age sex * p6.1.get_mortality_multiplier * hr) 0.99
  let st := if mDraws year < mortality then { p6.1 with alive := false } else p6.1
  ⟨st, s.qalys + quality * discount, s.life_years + 1, p6.2⟩

/-- The per-lifetime loop: break at the top of an iteration as soon as the
individual is no longer alive, otherwise run one simulated year. -/
noncomputable def armRun (step : ℕ → ArmState → ArmState) : ℕ → ℕ → ArmState → ArmState
  | 0, _, s => s
  | fuel + 1, year, s =>
    if s.state.alive = false then s else armRun step fuel (year + 1) (step year s)

/-- One full arm of `simulate_lifetime_paired`: initial state from the known
conditions (or healthy), then `max_age - start_age` simulated years. -/
noncomputable def pairedArm (start_age : ℤ) (sex : Sex) (hr r : ℝ) (max_age : ℤ)
    (dec : Cond → ℝ) (cDraws : Cond → ℕ → ℝ) (mDraws : ℕ → ℝ)
    (init : Option HealthState) : MarkovResult :=
  let st0 : HealthState :=
    match init with
    | some i => ⟨true, i.diabetes, i.hypertension, i.heart_disease, i.stroke, i.cancer, i.arthritis⟩
    | none => ⟨true, false, false, false, false, false, false⟩
  let fin := armRun (pairedArmStep start_age sex hr r dec cDraws mDraws)
    (max_age - start_age).toNat 0 ⟨st0, 0, 0, fun _ => none⟩
  ⟨fin.qalys, fin.life_years, start_age + ⌊fin.life_years⌋, fin.acquired⟩

/-- `simulate_lifetime_paired`: run the baseline arm with HR fixed at 1.0 and
the intervention arm with the supplied HR, reusing the same pre-generated
condition and mortality draws for both; returns
`(baseline_result, intervention_result)`. -/
noncomputable def simulate_lifetime_paired (start_age : ℤ) (sex : Sex)
    (intervention_hr r : ℝ) (max_age : ℤ) (dec : Cond → ℝ) (cDraws : Cond → ℕ → ℝ)
    (mDraws : ℕ → ℝ) (init : Option HealthState) : MarkovResult × MarkovResult :=
  (pairedArm start_age sex 1 r max_age dec cDraws mDraws init,
   pairedArm start_age sex intervention_hr r max_age dec cDraws mDraws init)

/-!
## Monte Carlo engine (`simulate.py`, `intervention.py`)

Again derandomised: the hazard-ratio samples, causal-fraction samples and
per-person quality-weight offsets drawn from the NumPy generator become the
streams `hrSamples`, `causalSamples`, `qualityOffsets : ℕ → ℝ`.  The inverse
Beta CDF used for `ConfoundingPrior.ci` is a SciPy routine external to the
repository and is passed in as `ppf : ℚ → ℚ → ℝ → ℝ` (alpha, beta, quantile).
-/

/-- `Distribution`: tagged hazard-ratio distribution (`intervention.py`). -/
inductive Distribution where
  | point (value : ℝ)
  | normal (mean sd : ℝ)
  | lognormal (log_mean log_sd : ℝ)
  | beta (alpha beta : ℝ)
  | uniform (lo hi : ℝ)

/-- `Distribution.mean`. -/
noncomputable def Distribution.mean : Distribution → ℝ
  | .point v => v
  | .normal m _ => m
  | .lognormal mu sigma => Real.exp (mu + sigma ^ 2 / 2)
  | .beta a b => a / (a + b)
  | .uniform lo hi => (lo + hi) / 2

/-- `MortalityEffect`: mortality effect of an intervention. -/
structure MortalityEffect where
  hazard_ratio : Distribution
  onset_delay : ℝ
  ramp_up : ℝ
  decay_rate : ℝ

/-- `Intervention`, restricted to the fields the simulation entry points read
(`category`, `mortality`, `confounding_prior`; the metadata fields are never
consulted by the embedded functions). -/
structure Intervention where
  id : String
  name : String
  category : Category
  mortality : Option MortalityEffect
  confounding_prior : Option ConfoundingPrior

/-- `SimulationResult` (`ci95`/`ci50` tuples flattened). -/
structure SimulationResult where
  median : ℝ
  mean : ℝ
  std : ℝ
  ci95_low : ℝ
  ci95_high : ℝ
  ci50_low : ℝ
  ci50_high : ℝ
  prob_positive : ℝ
  prob_more_than_one_year : ℝ
  cvd_contribution : ℝ
  cancer_contribution : ℝ
  other_contribution : ℝ
  life_years_gained : ℝ
  causal_fraction_mean : Option ℝ
  causal_fraction_ci : Option (ℝ × ℝ)
  n_simulations : ℕ
  discount_rate : ℝ

/-- Insert into a sorted list (ascending). -/
noncomputable def insertSorted (x : ℝ) : List ℝ → List ℝ
  | [] => [x]
  | y :: ys => if x ≤ y then x :: y :: ys else y :: insertSorted x ys

/-- Insertion sort, modelling NumPy's sort of the sample vector. -/
noncomputable def sortReal : List ℝ → List ℝ
  | [] => []
  | x :: xs => insertSorted x (sortReal xs)

/-- `np.percentile(xs, q)` with the default linear interpolation method. -/
noncomputable def percentileList (xs : List ℝ) (q : ℝ) : ℝ :=
  let s := sortReal xs
  let n := s.length
  let pos := q / 100 * ((n : ℝ) - 1)
  let i := (⌊pos⌋).toNat
  let j := min (i + 1) (n - 1)
  s.getD i 0 + (pos - (i : ℝ)) * (s.getD j 0 - s.getD i 0)

/-- `np.median`. -/
noncomputable def medianList (xs : List ℝ) : ℝ := percentileList xs 50

/-- `np.mean`. -/
noncomputable def meanList (xs : List ℝ) : ℝ := xs.sum / xs.length

/-- `np.std` (population standard deviation). -/
noncomputable def stdList (xs : List ℝ) : ℝ :=
  Real.sqrt ((xs.map (fun x => (x - meanList xs) ^ 2)).sum / xs.length)

/-- `np.mean(xs > t)`: the fraction of entries exceeding `t`. -/
noncomputable def probGT (xs : List ℝ) (t : ℝ) : ℝ :=
  ((xs.countP fun x => decide (t < x)) : ℝ) / xs.length

/-- The causal-fraction setup shared by the three entry points: with
confounding enabled and a prior present, use the sampled causal fractions and
report the prior's mean and 95% credible interval; otherwise use causal
fraction 1 and report nothing. -/
noncomputable def causalSetup (apply_confounding : Bool) (prior : Option ConfoundingPrior)
    (causalSamples : ℕ → ℝ) (ppf : ℚ → ℚ → ℝ → ℝ) :
    (ℕ → ℝ) × Option ℝ × Option (ℝ × ℝ) :=
  match apply_confounding, prior with
  | true, some pr =>
    (causalSamples, some ((pr.mean : ℝ)),
     some (ppf pr.alpha pr.beta 0.025, ppf pr.alpha pr.beta 0.975))
  | _, _ => (fun _ => 1, none, none)

/-- The degenerate result returned when an intervention has no declared
mortality effect: everything zero except `prob_positive = 0.5`. -/
noncomputable def degenerateResult (n : ℕ) (r : ℝ) : SimulationResult :=
  ⟨0, 0, 0, 0, 0, 0, 0, 0.5, 0, 0, 0, 0, 0, none, none, n, r⟩

/-- `simulate_qaly(intervention, age, sex, ...)`: the per-sample lifecycle loop. -/
noncomputable def simulate_qaly (intervention : Intervention) (age : ℤ) (sex : Sex)
    (n_simulations : ℕ) (discount_rate : ℝ) (apply_confounding : Bool)
    (hrSamples causalSamples : ℕ → ℝ) (ppf : ℚ → ℚ → ℝ → ℝ) : SimulationResult :=
  match intervention.mortality with
  | none => degenerateResult n_simulations discount_rate
  | some _ =>
    let setup := causalSetup apply_confounding intervention.confounding_prior causalSamples ppf
    let model : LifecycleModel := ⟨age, sex, discount_rate, 100, true, 1⟩
    let results := (List.range n_simulations).map fun i =>
      let adjusted_hr := adjust_hr (hrSamples i) (setup.1 i)
      let log_hr := Real.log adjusted_hr
      model.calculate ⟨Real.exp (log_hr * 1.3), Real.exp (log_hr * 0.8), Real.exp (log_hr * 0.6)⟩
    let qaly_gains := results.map LifecycleResult.qaly_gain
    ⟨medianList qaly_gains, meanList qaly_gains, stdList qaly_gains,
     percentileList qaly_gains 2.5, percentileList qaly_gains 97.5,
     percentileList qaly_gains 25, percentileList qaly_gains 75,
     probGT qaly_gains 0, probGT qaly_gains 1,
     medianList (results.map LifecycleResult.pathway_cvd),
     medianList (results.map LifecycleResult.pathway_cancer),
     medianList (results.map LifecycleResult.pathway_other),
     medianList (results.map LifecycleResult.life_years_gained),
     setup.2.1, setup.2.2, n_simulations, discount_rate⟩

/-- `simulate_qaly_profile(intervention, profile, ...)`: as `simulate_qaly`,
with the profile's baseline mortality multiplier and intervention-effect
modifier applied. -/
noncomputable def simulate_qaly_profile (intervention : Intervention) (profile : Profile)
    (n_simulations : ℕ) (discount_rate : ℝ) (apply_confounding : Bool)
    (hrSamples causalSamples : ℕ → ℝ) (ppf : ℚ → ℚ → ℝ → ℝ) : SimulationResult :=
  match intervention.mortality with
  | none => degenerateResult n_simulations discount_rate
  | some _ =>
    let mult := get_baseline_mortality_multiplier profile
    let modifier := get_intervention_modifier profile intervention.category
    let hrAt := fun i =>
      if modifier ≠ 1 then Real.exp (Real.log (hrSamples i) * modifier) else hrSamples i
    let setup := causalSetup apply_confounding intervention.confounding_prior causalSamples ppf
    let model : LifecycleModel := ⟨profile.age, profile.sex, discount_rate, 100, true, mult⟩
    let results := (List.range n_simulations).map fun i =>
      let adjusted_hr := adjust_hr (hrAt i) (setup.1 i)
      let log_hr := Real.log adjusted_hr
      model.calculate ⟨Real.exp (log_hr * 1.3), Real.exp (log_hr * 0.8), Real.exp (log_hr * 0.6)⟩
    let qaly_gains := results.map LifecycleResult.qaly_gain
    ⟨medianList qaly_gains, meanList qaly_gains, stdList qaly_gains,
     percentileList qaly_gains 2.5, percentileList qaly_gains 97.5,
     percentileList qaly_gains 25, percentileList qaly_gains 75,
     probGT qaly_gains 0, probGT qaly_gains 1,
     medianList (results.map LifecycleResult.pathway_cvd),
     medianList (results.map LifecycleResult.pathway_cancer),
     medianList (results.map LifecycleResult.pathway_other),
     medianList (results.map LifecycleResult.life_years_gained),
     setup.2.1, setup.2.2, n_simulations, discount_rate⟩

/-- `simulate_qaly_profile_vectorized(intervention, profile, ...)`: the
broadcasted Monte Carlo engine.  `qualityOffsets` are the per-person
quality-weight offsets drawn from `Normal(0, QUALITY_WEIGHT_STD)`;
the per-(simulation, year) intervention mortality matrix is clamped at 0.99. -/
noncomputable def simulate_qaly_profile_vectorized (intervention : Intervention)
    (profile : Profile) (n_simulations : ℕ) (discount_rate : ℝ) (apply_confounding : Bool)
    (hrSamples causalSamples qualityOffsets : ℕ → ℝ) (ppf : ℚ → ℚ → ℝ → ℝ) :
    SimulationResult :=
  match intervention.mortality with
  | none => degenerateResult n_simulations discount_rate
  | some _ =>
    let mult := get_baseline_mortality_multiplier profile
    let modifier := get_intervention_modifier profile intervention.category
    let n_years := (100 - profile.age).toNat
    let base_qx := fun (y : ℕ) =>
      min (get_mortality_rate ((profile.age : ℝ) + y) profile.sex * mult) 0.99
    let base_quality := fun (y : ℕ) => get_quality_weight ((profile.age : ℝ) + y)
    let disc := fun (y : ℕ) => (1 / (1 + discount_rate)) ^ y
    let cf := fun (y : ℕ) => get_cause_fraction ((profile.age : ℝ) + y)
    let quality := fun (s y : ℕ) => min (max (base_quality y + qualityOffsets s) 0.1) 1.0
    let hrAt := fun i =>
      if modifier ≠ 1 then Real.exp (Real.log (hrSamples i) * modifier) else hrSamples i
    let setup := causalSetup apply_confounding intervention.confounding_prior causalSamples ppf
    let adjusted := fun i => Real.exp (setup.1 i * Real.log (hrAt i))
    let log_hr := fun i => Real.log (adjusted i)
    let iqx := fun (s y : ℕ) =>
      min (base_qx y * ((cf y).cvd * Real.exp (log_hr s * 1.3) +
        (cf y).cancer * Real.exp (log_hr s * 0.8) +
        (cf y).other * Real.exp (log_hr s * 0.6))) 0.99
    let bsurv := fun (y : ℕ) => ∏ j ∈ Finset.range y, (1 - base_qx j)
    let baseline_life_years := ∑ y ∈ Finset.range n_years, bsurv y
    let baseline_qalys := fun (s : ℕ) =>
      ∑ y ∈ Finset.range n_years, bsurv y * quality s y * disc y
    let isurv := fun (s y : ℕ) => ∏ j ∈ Finset.range y, (1 - iqx s j)
    let int_qalys := fun (s : ℕ) =>
      ∑ y ∈ Finset.range n_years, isurv s y * quality s y * disc y
    let int_ly := fun (s : ℕ) => ∑ y ∈ Finset.range n_years, isurv s y
    let qaly_gains := (List.range n_simulations).map fun s => int_qalys s - baseline_qalys s
    let ly_gains := (List.range n_simulations).map fun s => int_ly s - baseline_life_years
    let median_hr := medianList ((List.range n_simulations).map adjusted)
    let log_median := Real.log median_hr
    let cvd_c := (1 - Real.exp (log_median * 1.3)) *
      ((∑ y ∈ Finset.range n_years, (cf y).cvd) / n_years)
    let can_c := (1 - Real.exp (log_median * 0.8)) *
      ((∑ y ∈ Finset.range n_years, (cf y).cancer) / n_years)
    let oth_c := (1 - Real.exp (log_median * 0.6)) *
      ((∑ y ∈ Finset.range n_years, (cf y).other) / n_years)
    let total_c := cvd_c + can_c + oth_c
    let contribs :=
      if 0 < total_c then (cvd_c / total_c, can_c / total_c, oth_c / total_c)
      else (cvd_c, can_c, oth_c)
    ⟨medianList qaly_gains, meanList qaly_gains, stdList qaly_gains,
     percentileList qaly_gains 2.5, percentileList qaly_gains 97.5,
     percentileList qaly_gains 25, percentileList qaly_gains 75,
     probGT qaly_gains 0, probGT qaly_gains 1,
     contribs.1, contribs.2.1, contribs.2.2,
     medianList ly_gains,
     setup.2.1, setup.2.2, n_simulations, discount_rate⟩

/-!
## Proof helpers (rational bounding data for the male life table from age 40)
-/

/-- Scaled per-year survival-factor lower bound for a male aged 40 + y:
`cbN y / 100000` is `1 -` (the larger adjacent male life-table anchor value of
the 5-year block containing year `y`). -/
def cbN (y : ℕ) : ℕ :=
  [99631, 99453, 99168, 98794, 98303, 97533, 96289, 94360, 91263, 86490,
    80147].getD (y / 5) 72500

/-- Scaled cumulative lower bound on the baseline survival curve of a
40-year-old male: `survNum y / 100000 ^ y` underestimates the surviving
fraction after `y` years. -/
def survNum : ℕ → ℕ
  | 0 => 1
  | y + 1 => survNum y * cbN y

/-!
## Generic interpolation lemmas
-/

theorem interpAux_lt {α : Type} {k : ℝ → α → ℝ → α → ℝ → α} {la : ℝ} {lv : α}
    {ua : ℝ} {uv : α} {rest : List (ℝ × α)} {age : ℝ} (h : age < ua) :
    interpAux k la lv ((ua, uv) :: rest) age = k la lv ua uv age := by
  simp [interpAux, h]

theorem interpAux_ge {α : Type} {k : ℝ → α → ℝ → α → ℝ → α} {la : ℝ} {lv : α}
    {ua : ℝ} {uv : α} {rest : List (ℝ × α)} {age : ℝ} (h : ¬ age < ua) :
    interpAux k la lv ((ua, uv) :: rest) age = interpAux k ua uv rest age := by
  simp [interpAux, h]

/-- Any property of table values preserved by the kernel on its bracketing
window holds of the scan result. -/
theorem interpAux_prop {α : Type} {P : α → Prop} {k : ℝ → α → ℝ → α → ℝ → α}
    (hk : ∀ la lv ua uv age, la ≤ age → age < ua → P lv → P uv → P (k la lv ua uv age)) :
    ∀ (rest : List (ℝ × α)) (la : ℝ) (lv : α) (age : ℝ), la ≤ age → P lv →
      (∀ p ∈ rest, P p.2) → P (interpAux k la lv rest age) := by
  intro rest
  induction rest with
  | nil => intro la lv age _ hlv _; simpa [interpAux] using hlv
  | cons hd tl ih =>
    rcases hd with ⟨ua, uv⟩
    intro la lv age hla hlv hrest
    by_cases h : age < ua
    · rw [interpAux_lt h]
      exact hk la lv ua uv age hla h hlv (hrest (ua, uv) (by simp))
    · rw [interpAux_ge h]
      exact ih ua uv age (le_of_not_lt h) (hrest (ua, uv) (by simp))
        (fun p hp => hrest p (by simp [hp]))

/-- Any property of table values preserved by the kernel holds of the full
anchor walk on a nonempty table. -/
theorem interpolate_table_prop {α : Type} {P : α → Prop} {k : ℝ → α → ℝ → α → ℝ → α}
    (hk : ∀ la lv ua uv age, la ≤ age → age < ua → P lv → P uv → P (k la lv ua uv age))
    (dflt : α) (a0 : ℝ) (v0 : α) (rest : List (ℝ × α)) (age : ℝ) (hv0 : P v0)
    (hrest : ∀ p ∈ rest, P p.2) :
    P (interpolate_table k dflt ((a0, v0) :: rest) age) := by
  rw [interpolate_table]
  split
  · exact hv0
  · next h => exact interpAux_prop hk rest a0 v0 age (le_of_not_le h) hv0 hrest

/-- The linear kernel stays inside any interval containing both endpoint
values. -/
theorem linKernel_mem {lo hi la lv ua uv age : ℝ} (hla : la ≤ age) (hua : age < ua)
    (hl : lv ∈ Set.Icc lo hi) (hu : uv ∈ Set.Icc lo hi) :
    linKernel la lv ua uv age ∈ Set.Icc lo hi := by
  obtain ⟨hl1, hl2⟩ := hl
  obtain ⟨hu1, hu2⟩ := hu
  have hd : 0 < ua - la := by linarith
  have hf0 : 0 ≤ (age - la) / (ua - la) := div_nonneg (by linarith) (le_of_lt hd)
  have hf1 : (age - la) / (ua - la) ≤ 1 := by
    rw [div_le_one hd]; linarith
  constructor
  · have := mul_nonneg hf0 (sub_nonneg.2 hu1)
    have := mul_nonneg (sub_nonneg.2 hf1) (sub_nonneg.2 hl1)
    unfold linKernel
    nlinarith
  · have := mul_nonneg hf0 (sub_nonneg.2 hu2)
    have := mul_nonneg (sub_nonneg.2 hf1) (sub_nonneg.2 hl2)
    unfold linKernel
    nlinarith

/-- The log-linear kernel stays inside any positive interval containing both
endpoint values. -/
theorem loglinKernel_mem {lo hi la lv ua uv age : ℝ} (hlo : 0 < lo) (hla : la ≤ age)
    (hua : age < ua) (hl : lv ∈ Set.Icc lo hi) (hu : uv ∈ Set.Icc lo hi) :
    loglinKernel la lv ua uv age ∈ Set.Icc lo hi := by
  obtain ⟨hl1, hl2⟩ := hl
  obtain ⟨hu1, hu2⟩ := hu
  have hlv : 0 < lv := lt_of_lt_of_le hlo hl1
  have huv : 0 < uv := lt_of_lt_of_le hlo hu1
  have hhi : 0 < hi := lt_of_lt_of_le hlv hl2
  have hd : 0 < ua - la := by linarith
  have hf0 : 0 ≤ (age - la) / (ua - la) := div_nonneg (by linarith) (le_of_lt hd)
  have hf1 : (age - la) / (ua - la) ≤ 1 := by
    rw [div_le_one hd]; linarith
  have hAlo : Real.log lo ≤ Real.log lv := Real.log_le_log hlo hl1
  have hBlo : Real.log lo ≤ Real.log uv := Real.log_le_log hlo hu1
  have hAhi : Real.log lv ≤ Real.log hi := Real.log_le_log hlv hl2
  have hBhi : Real.log uv ≤ Real.log hi := Real.log_le_log huv hu2
  unfold loglinKernel
  rw [if_pos ⟨hlv, huv⟩]
  set f := (age - la) / (ua - la) with hf
  have hmlo : Real.log lo ≤ Real.log lv + f * (Real.log uv - Real.log lv) := by
    nlinarith [mul_nonneg hf0 (sub_nonneg.2 hBlo), mul_nonneg (sub_nonneg.2 hf1) (sub_nonneg.2 hAlo)]
  have hmhi : Real.log lv + f * (Real.log uv - Real.log lv) ≤ Real.log hi := by
    nlinarith [mul_nonneg hf0 (sub_nonneg.2 hBhi), mul_nonneg (sub_nonneg.2 hf1) (sub_nonneg.2 hAhi)]
  constructor
  · calc lo = Real.exp (Real.log lo) := (Real.exp_log hlo).symm
    _ ≤ _ := Real.exp_le_exp.2 hmlo
  · calc Real.exp (Real.log lv + f * (Real.log uv - Real.log lv))
        ≤ Real.exp (Real.log hi) := Real.exp_le_exp.2 hmhi
    _ = hi := Real.exp_log hhi

/-- At the left anchor the log-linear kernel returns the anchor value exactly. -/
theorem loglinKernel_left (la lv ua uv : ℝ) (h : 0 < lv) (h' : 0 < uv) :
    loglinKernel la lv ua uv la = lv := by
  unfold loglinKernel
  rw [if_pos ⟨h, h'⟩]
  simp [Real.exp_log h]

/-!
## Global bounds of the concrete tables
-/

/-- Every interpolated mortality rate lies between the smallest and largest
anchor values of the two life tables. -/
theorem get_mortality_rate_mem (age : ℝ) (sex : Sex) :
    get_mortality_rate age sex ∈ Set.Icc (0.00009 : ℝ) 0.275 := by
  cases sex with
  | male =>
    rw [get_mortality_rate, show CDC_LIFE_TABLE .male = CDC_LIFE_TABLE_male from rfl,
      CDC_LIFE_TABLE_male]
    refine interpolate_table_prop
      (fun la lv ua uv a h1 h2 hl hu => loglinKernel_mem (by norm_num) h1 h2 hl hu)
      _ _ _ _ _ (by norm_num) ?_
    intro p hp
    fin_cases hp <;> norm_num
  | female =>
    rw [get_mortality_rate, show CDC_LIFE_TABLE .female = CDC_LIFE_TABLE_female from rfl,
      CDC_LIFE_TABLE_female]
    refine interpolate_table_prop
      (fun la lv ua uv a h1 h2 hl hu => loglinKernel_mem (by norm_num) h1 h2 hl hu)
      _ _ _ _ _ (by norm_num) ?_
    intro p hp
    fin_cases hp <;> norm_num

/-- Every interpolated quality weight lies between 0.65 and 0.92. -/
theorem get_quality_weight_mem (age : ℝ) :
    get_quality_weight age ∈ Set.Icc (0.65 : ℝ) 0.92 := by
  rw [get_quality_weight, QUALITY_WEIGHTS]
  refine interpolate_table_prop
    (fun la lv ua uv a h1 h2 hl hu => linKernel_mem h1 h2 hl hu)
    _ _ _ _ _ (by norm_num) ?_
  intro p hp
  fin_cases hp <;> norm_num

/-- Interpolated cause fractions: componentwise bounds from the anchor values,
and the three components always sum exactly to 1. -/
theorem get_cause_fraction_props (age : ℝ) :
    (get_cause_fraction age).cvd ∈ Set.Icc (0.20 : ℝ) 0.45 ∧
    (get_cause_fraction age).cancer ∈ Set.Icc (0.12 : ℝ) 0.35 ∧
    (get_cause_fraction age).other ∈ Set.Icc (0.35 : ℝ) 0.55 ∧
    (get_cause_fraction age).cvd + (get_cause_fraction age).cancer +
      (get_cause_fraction age).other = 1 := by
  rw [get_cause_fraction, CAUSE_FRACTIONS]
  refine interpolate_table_prop
    (P := fun v : CauseFrac => v.cvd ∈ Set.Icc (0.20 : ℝ) 0.45 ∧
      v.cancer ∈ Set.Icc (0.12 : ℝ) 0.35 ∧ v.other ∈ Set.Icc (0.35 : ℝ) 0.55 ∧
      v.cvd + v.cancer + v.other = 1)
    ?_ _ _ _ _ _ (by norm_num) ?_
  · intro la lv ua uv a h1 h2 hl hu
    obtain ⟨hl1, hl2, hl3, hl4⟩ := hl
    obtain ⟨hu1, hu2, hu3, hu4⟩ := hu
    refine ⟨linKernel_mem h1 h2 hl1 hu1, linKernel_mem h1 h2 hl2 hu2,
      linKernel_mem h1 h2 hl3 hu3, ?_⟩
    simp only [cfKernel]
    linear_combination (1 - (a - la) / (ua - la)) * hl4 + ((a - la) / (ua - la)) * hu4
  · intro p hp
    fin_cases hp <;> norm_num

/-!
## Claim C7
-/

/-- Claim C7: for every age (anchor, interpolated, or outside the anchor
range), `get_cause_fraction` returns cvd, cancer and other fractions whose sum
equals 1.0 within 1e-6 (in fact exactly). -/
theorem C7_cause_fractions_sum_to_one (age : ℝ) :
    |(get_cause_fraction age).cvd + (get_cause_fraction age).cancer +
      (get_cause_fraction age).other - 1| ≤ 1 / 1000000 := by
  rw [(get_cause_fraction_props age).2.2.2]
  norm_num

/-!
## Claim C8
-/

/-- Claim C8: `get_baseline_mortality_multiplier` is the product of the five
named relative-risk table entries; holding all other attributes equal, the
severely-obese multiplier strictly exceeds 1.5 times the normal-BMI
multiplier, and the current-smoker multiplier is between 2.5 and 3.2 times the
never-smoker multiplier. -/
theorem C8_baseline_mortality_multiplier (p : Profile) :
    get_baseline_mortality_multiplier p =
      BMI_MORTALITY_RR p.bmi_category * SMOKING_MORTALITY_RR p.smoking_status *
        (if p.has_diabetes then DIABETES_MORTALITY_RR else 1.0) *
        (if p.has_hypertension then HYPERTENSION_MORTALITY_RR else 1.0) *
        ACTIVITY_MORTALITY_RR p.activity_level ∧
    1.5 * get_baseline_mortality_multiplier
        ⟨p.age, p.sex, .normal, p.smoking_status, p.has_diabetes, p.has_hypertension,
          p.activity_level⟩ <
      get_baseline_mortality_multiplier
        ⟨p.age, p.sex, .severely_obese, p.smoking_status, p.has_diabetes,
          p.has_hypertension, p.activity_level⟩ ∧
    2.5 * get_baseline_mortality_multiplier
        ⟨p.age, p.sex, p.bmi_category, .never, p.has_diabetes, p.has_hypertension,
          p.activity_level⟩ ≤
      get_baseline_mortality_multiplier
        ⟨p.age, p.sex, p.bmi_category, .current, p.has_diabetes, p.has_hypertension,
          p.activity_level⟩ ∧
    get_baseline_mortality_multiplier
        ⟨p.age, p.sex, p.bmi_category, .current, p.has_diabetes, p.has_hypertension,
          p.activity_level⟩ ≤
      3.2 * get_baseline_mortality_multiplier
        ⟨p.age, p.sex, p.bmi_category, .never, p.has_diabetes, p.has_hypertension,
          p.activity_level⟩ := by
  have hB : 0 < BMI_MORTALITY_RR p.bmi_category := by
    cases p.bmi_category <;> norm_num [BMI_MORTALITY_RR]
  have hS : 0 < SMOKING_MORTALITY_RR p.smoking_status := by
    cases p.smoking_status <;> norm_num [SMOKING_MORTALITY_RR]
  have hA : 0 < ACTIVITY_MORTALITY_RR p.activity_level := by
    cases p.activity_level <;> norm_num [ACTIVITY_MORTALITY_RR]
  have hD : 0 < (if p.has_diabetes then DIABETES_MORTALITY_RR else 1.0) := by
    split <;> norm_num [DIABETES_MORTALITY_RR]
  have hH : 0 < (if p.has_hypertension then HYPERTENSION_MORTALITY_RR else 1.0) := by
    split <;> norm_num [HYPERTENSION_MORTALITY_RR]
  have e1 : BMI_MORTALITY_RR .normal = 1.0 := rfl
  have e2 : BMI_MORTALITY_RR .severely_obese = 2.06 := rfl
  have e3 : SMOKING_MORTALITY_RR .never = 1.0 := rfl
  have e4 : SMOKING_MORTALITY_RR .current = 2.80 := rfl
  refine ⟨rfl, ?_, ?_, ?_⟩ <;>
  · simp only [get_baseline_mortality_multiplier, e1, e2, e3, e4]
    nlinarith [mul_pos (mul_pos (mul_pos hS hD) hH) hA,
      mul_pos (mul_pos (mul_pos hB hD) hH) hA]

/-!
## Claim C5 (corrected)
-/

/-- Claim C5 counterexample: for the `exercise` category with `cohort`
evidence (multiplier 0.8 < 1), the adjusted prior's mean is strictly *below*
the base prior's mean — the claim's "shifted upward" fails for this
evidence type. -/
theorem C5_counterexample :
    (get_confounding_prior .exercise (some .cohort)).mean <
      (CATEGORY_PRIORS .exercise).mean := by
  norm_num [get_confounding_prior, CATEGORY_PRIORS, EVIDENCE_ADJUSTMENTS,
    ConfoundingPrior.mean]

/-- Claim C5 (amended): for every category and evidence type the returned
prior's beta is the base beta unchanged and its alpha is the base alpha times
the evidence-type multiplier; the mean is shifted upward exactly for the
evidence types whose multiplier exceeds 1 (`rct`, `meta-analysis`), is
unchanged for `review` (multiplier 1.0), and is shifted downward for
`cohort`, `case-control` and `other` (multipliers below 1). -/
theorem C5_amended :
    (∀ cat : Category, ∀ et : EvidenceType,
      (get_confounding_prior cat (some et)).beta = (CATEGORY_PRIORS cat).beta ∧
      (get_confounding_prior cat (some et)).alpha =
        (CATEGORY_PRIORS cat).alpha * EVIDENCE_ADJUSTMENTS et) ∧
    (∀ cat : Category,
      (CATEGORY_PRIORS cat).mean < (get_confounding_prior cat (some .rct)).mean ∧
      (CATEGORY_PRIORS cat).mean < (get_confounding_prior cat (some .meta_analysis)).mean ∧
      (get_confounding_prior cat (some .review)).mean = (CATEGORY_PRIORS cat).mean ∧
      (get_confounding_prior cat (some .cohort)).mean < (CATEGORY_PRIORS cat).mean ∧
      (get_confounding_prior cat (some .case_control)).mean < (CATEGORY_PRIORS cat).mean ∧
      (get_confounding_prior cat (some .other)).mean < (CATEGORY_PRIORS cat).mean) := by
  refine ⟨fun cat et => ⟨rfl, rfl⟩, ?_⟩
  intro cat
  cases cat <;>
    refine ⟨?_, ?_, ?_, ?_, ?_, ?_⟩ <;>
      norm_num [get_confounding_prior, CATEGORY_PRIORS, EVIDENCE_ADJUSTMENTS,
        ConfoundingPrior.mean]

/-!
## Claim C6
-/

/-- Claim C6: for every hr > 0, `adjust_hr hr 1 = hr` and `adjust_hr hr 0 = 1`
exactly; `adjust_hr` is monotone in the causal fraction on [0, 1]
(non-decreasing for hr ≥ 1, non-increasing for hr ≤ 1), and for causal
fractions strictly between 0 and 1 the output lies between 1 and hr. -/
theorem C6_adjust_hr_properties (hr : ℝ) (hhr : 0 < hr) :
    adjust_hr hr 1 = hr ∧ adjust_hr hr 0 = 1 ∧
    (∀ c₁ c₂ : ℝ, 0 ≤ c₁ → c₁ ≤ c₂ → c₂ ≤ 1 →
      (1 ≤ hr → adjust_hr hr c₁ ≤ adjust_hr hr c₂) ∧
      (hr ≤ 1 → adjust_hr hr c₂ ≤ adjust_hr hr c₁)) ∧
    (∀ c : ℝ, 0 < c → c < 1 →
      min 1 hr ≤ adjust_hr hr c ∧ adjust_hr hr c ≤ max 1 hr) := by
  refine ⟨by simp [adjust_hr, Real.exp_log hhr], by simp [adjust_hr], ?_, ?_⟩
  · intro c₁ c₂ _ h12 _
    constructor
    · intro h1
      have hL : 0 ≤ Real.log hr := Real.log_nonneg h1
      exact Real.exp_le_exp.2 (mul_le_mul_of_nonneg_right h12 hL)
    · intro h1
      have hL : Real.log hr ≤ 0 := Real.log_nonpos (le_of_lt hhr) h1
      exact Real.exp_le_exp.2 (by nlinarith)
  · intro c hc0 hc1
    rcases le_total 1 hr with h1 | h1
    · have hL : 0 ≤ Real.log hr := Real.log_nonneg h1
      rw [min_eq_left h1, max_eq_right h1]
      constructor
      · calc (1 : ℝ) = Real.exp 0 := Real.exp_zero.symm
        _ ≤ _ := Real.exp_le_exp.2 (mul_nonneg (le_of_lt hc0) hL)
      · calc adjust_hr hr c ≤ Real.exp (1 * Real.log hr) :=
            Real.exp_le_exp.2 (mul_le_mul_of_nonneg_right (le_of_lt hc1) hL)
        _ = hr := by simp [Real.exp_log hhr]
    · have hL : Real.log hr ≤ 0 := Real.log_nonpos (le_of_lt hhr) h1
      rw [min_eq_right h1, max_eq_left h1]
      constructor
      · calc hr = Real.exp (1 * Real.log hr) := by simp [Real.exp_log hhr]
        _ ≤ _ := Real.exp_le_exp.2 (by nlinarith)
      · calc adjust_hr hr c ≤ Real.exp 0 := Real.exp_le_exp.2 (by nlinarith)
        _ = 1 := Real.exp_zero

/-- Witness for C6 at hr = 2, causal fraction 1/2. -/
theorem C6_adjust_hr_witness :
    adjust_hr 2 1 = 2 ∧ adjust_hr 2 0 = 1 ∧
    min 1 2 ≤ adjust_hr 2 (1 / 2) ∧ adjust_hr 2 (1 / 2) ≤ max 1 2 := by
  have h := C6_adjust_hr_properties 2 (by norm_num)
  have h4 := h.2.2.2 (1 / 2) (by norm_num) (by norm_num)
  exact ⟨h.1, h.2.1, h4.1, h4.2⟩

/-!
## Claim C9
-/

/-- Claim C9: when the intervention declares no mortality effect, all three
Monte Carlo entry points return the degenerate result — every statistic zero,
`prob_positive = 0.5`, no causal-fraction summary — regardless of profile,
sample count, discount rate, confounding flag and draws. -/
theorem C9_no_mortality_degenerate (intervention : Intervention) (age : ℤ) (sex : Sex)
    (profile : Profile) (n : ℕ) (r : ℝ) (ac : Bool) (hrS cS qO : ℕ → ℝ)
    (ppf : ℚ → ℚ → ℝ → ℝ) (h : intervention.mortality = none) :
    simulate_qaly intervention age sex n r ac hrS cS ppf =
      ⟨0, 0, 0, 0, 0, 0, 0, 0.5, 0, 0, 0, 0, 0, none, none, n, r⟩ ∧
    simulate_qaly_profile intervention profile n r ac hrS cS ppf =
      ⟨0, 0, 0, 0, 0, 0, 0, 0.5, 0, 0, 0, 0, 0, none, none, n, r⟩ ∧
    simulate_qaly_profile_vectorized intervention profile n r ac hrS cS qO ppf =
      ⟨0, 0, 0, 0, 0, 0, 0, 0.5, 0, 0, 0, 0, 0, none, none, n, r⟩ := by
  refine ⟨?_, ?_, ?_⟩
  · rw [simulate_qaly, h]
    rfl
  · rw [simulate_qaly_profile, h]
    rfl
  · rw [simulate_qaly_profile_vectorized, h]
    rfl

/-- Witness for C9: a concrete intervention with `mortality = None`. -/
theorem C9_no_mortality_degenerate_witness :
    simulate_qaly ⟨"placebo", "placebo", .other, none, none⟩ 40 .male 1000 0.03 true
        (fun _ => 1) (fun _ => 1) (fun _ _ _ => (0 : ℝ)) =
      ⟨0, 0, 0, 0, 0, 0, 0, 0.5, 0, 0, 0, 0, 0, none, none, 1000, 0.03⟩ :=
  (C9_no_mortality_degenerate ⟨"placebo", "placebo", .other, none, none⟩ 40 .male
    ⟨40, .male, .normal, .never, false, false, .light⟩ 1000 0.03 true
    (fun _ => 1) (fun _ => 1) (fun _ => 1) (fun _ _ _ => (0 : ℝ)) rfl).1

/-!
## Markov lemmas
-/

/-- A dead state is a fixed point of the per-lifetime loop. -/
theorem armRun_dead (step : ℕ → ArmState → ArmState) :
    ∀ (fuel year : ℕ) (s : ArmState), s.state.alive = false →
      armRun step fuel year s = s := by
  intro fuel
  induction fuel with
  | zero => intro year s _; rfl
  | succ f _ =>
    intro year s h
    simp only [armRun]
    rw [if_pos h]

/-- The condition mortality multiplier is positive. -/
theorem get_mortality_multiplier_pos (s : HealthState) :
    0 < s.get_mortality_multiplier := by
  have h : ∀ (b : Bool) (x : ℝ), 0 < x → 0 < (if b = true then x else 1) := by
    intro b x hx; cases b <;> simp [hx]
  unfold HealthState.get_mortality_multiplier
  refine mul_pos (mul_pos (mul_pos (mul_pos (mul_pos (mul_pos one_pos ?_) ?_) ?_) ?_) ?_) ?_ <;>
    exact h _ _ (by norm_num [CONDITION_MORTALITY_MULTIPLIERS])

/-- One simulated year never decreases the accumulated QALYs and life years
(the quality weight is floored at 0.1 and the discount factor is positive for
discount rates above -1). -/
theorem pairedArmStep_acc (start_age : ℤ) (sex : Sex) (hr r : ℝ) (dec : Cond → ℝ)
    (cDraws : Cond → ℕ → ℝ) (mDraws : ℕ → ℝ) (hdisc : -1 < r) (year : ℕ) (s : ArmState) :
    s.qalys ≤ (pairedArmStep start_age sex hr r dec cDraws mDraws year s).qalys ∧
    s.life_years ≤ (pairedArmStep start_age sex hr r dec cDraws mDraws year s).life_years := by
  have h1 : (0 : ℝ) < 1 + r := by linarith
  have h2 : (0 : ℝ) < (1 + r) ^ year := pow_pos h1 year
  have hq : (0 : ℝ) ≤ max 0.1 (get_quality_weight ((start_age : ℝ) + year) -
      s.state.get_quality_decrement dec) :=
    le_trans (by norm_num) (le_max_left _ _)
  have hd : (0 : ℝ) ≤ 1 / (1 + r) ^ year := le_of_lt (by positivity)
  constructor
  · simp only [pairedArmStep]
    exact le_add_of_nonneg_right (mul_nonneg hq hd)
  · simp only [pairedArmStep]
    linarith

/-- The per-lifetime loop never decreases the accumulated QALYs and life
years. -/
theorem armRun_acc (start_age : ℤ) (sex : Sex) (hr r : ℝ) (dec : Cond → ℝ)
    (cDraws : Cond → ℕ → ℝ) (mDraws : ℕ → ℝ) (hdisc : -1 < r) :
    ∀ (fuel year : ℕ) (s : ArmState),
      s.qalys ≤ (armRun (pairedArmStep start_age sex hr r dec cDraws mDraws) fuel year s).qalys ∧
      s.life_years ≤
        (armRun (pairedArmStep start_age sex hr r dec cDraws mDraws) fuel year s).life_years := by
  intro fuel
  induction fuel with
  | zero => intro year s; exact ⟨le_refl _, le_refl _⟩
  | succ f ih =>
    intro year s
    simp only [armRun]
    split
    · exact ⟨le_refl _, le_refl _⟩
    · have hstep := pairedArmStep_acc start_age sex hr r dec cDraws mDraws hdisc year s
      have hrest := ih (year + 1) (pairedArmStep start_age sex hr r dec cDraws mDraws year s)
      exact ⟨le_trans hstep.1 hrest.1, le_trans hstep.2 hrest.2⟩

/-- One simulated year never decreases the accumulated life years (each year
adds exactly 1), for every discount rate. -/
theorem pairedArmStep_acc_ly (start_age : ℤ) (sex : Sex) (hr r : ℝ) (dec : Cond → ℝ)
    (cDraws : Cond → ℕ → ℝ) (mDraws : ℕ → ℝ) (year : ℕ) (s : ArmState) :
    s.life_years ≤ (pairedArmStep start_age sex hr r dec cDraws mDraws year s).life_years := by
  simp only [pairedArmStep]
  linarith

/-- The per-lifetime loop never decreases the accumulated life years, for
every discount rate. -/
theorem armRun_acc_ly (start_age : ℤ) (sex : Sex) (hr r : ℝ) (dec : Cond → ℝ)
    (cDraws : Cond → ℕ → ℝ) (mDraws : ℕ → ℝ) :
    ∀ (fuel year : ℕ) (s : ArmState),
      s.life_years ≤
        (armRun (pairedArmStep start_age sex hr r dec cDraws mDraws) fuel year s).life_years := by
  intro fuel
  induction fuel with
  | zero => intro year s; exact le_refl _
  | succ f ih =>
    intro year s
    simp only [armRun]
    split
    · exact le_refl _
    · exact le_trans (pairedArmStep_acc_ly start_age sex hr r dec cDraws mDraws year s)
        (ih (year + 1) _)

/-- Stepping an alive state with the baseline threshold (HR 1) and with a
protective threshold (HR ≤ 1) on the same shared draws: either the two
resulting states coincide, or the baseline arm just died while the
intervention arm stays alive with identical accumulators. -/
theorem pairedArmStep_compare (start_age : ℤ) (sex : Sex) (hr r : ℝ) (dec : Cond → ℝ)
    (cDraws : Cond → ℕ → ℝ) (mDraws : ℕ → ℝ) (hhr : hr ≤ 1) (year : ℕ) (s : ArmState) :
    pairedArmStep start_age sex 1 r dec cDraws mDraws year s =
      pairedArmStep start_age sex hr r dec cDraws mDraws year s ∨
    ((pairedArmStep start_age sex 1 r dec cDraws mDraws year s).state.alive = false ∧
      (pairedArmStep start_age sex hr r dec cDraws mDraws year s).qalys =
        (pairedArmStep start_age sex 1 r dec cDraws mDraws year s).qalys ∧
      (pairedArmStep start_age sex hr r dec cDraws mDraws year s).life_years =
        (pairedArmStep start_age sex 1 r dec cDraws mDraws year s).life_years) := by
  have hqx : (0 : ℝ) ≤ get_mortality_rate ((start_age : ℝ) + year) sex :=
    le_trans (by norm_num) (get_mortality_rate_mem ((start_age : ℝ) + year) sex).1
  simp only [pairedArmStep]
  set p6 := condUpdate cDraws ((start_age : ℝ) + year) (start_age + year) year
    (condUpdate cDraws ((start_age : ℝ) + year) (start_age + year) year
      (condUpdate cDraws ((start_age : ℝ) + year) (start_age + year) year
        (condUpdate cDraws ((start_age : ℝ) + year) (start_age + year) year
          (condUpdate cDraws ((start_age : ℝ) + year) (start_age + year) year
            (condUpdate cDraws ((start_age : ℝ) + year) (start_age + year) year
              (s.state, s.acquired) .diabetes) .hypertension) .heart_disease)
        .stroke) .cancer) .arthritis with hp6
  have hmono : min (get_mortality_rate ((start_age : ℝ) + year) sex *
        p6.1.get_mortality_multiplier * hr) 0.99 ≤
      min (get_mortality_rate ((start_age : ℝ) + year) sex *
        p6.1.get_mortality_multiplier * 1) 0.99 := by
    refine min_le_min ?_ (le_refl _)
    have hbm : (0 : ℝ) ≤ get_mortality_rate ((start_age : ℝ) + year) sex *
        p6.1.get_mortality_multiplier :=
      mul_nonneg hqx (le_of_lt (get_mortality_multiplier_pos p6.1))
    exact mul_le_mul_of_nonneg_left hhr hbm
  split_ifs with h1 h2 h2
  · left; rfl
  · right
    refine ⟨rfl, ?_, ?_⟩ <;> trivial
  · exact absurd (lt_of_lt_of_le h2 hmono) h1
  · left; rfl

/-- Pointwise dominance of the protective arm over the baseline arm of the
per-lifetime loop. -/
theorem armRun_compare (start_age : ℤ) (sex : Sex) (hr r : ℝ) (dec : Cond → ℝ)
    (cDraws : Cond → ℕ → ℝ) (mDraws : ℕ → ℝ) (hhr : hr ≤ 1) (hdisc : -1 < r) :
    ∀ (fuel year : ℕ) (s : ArmState),
      (armRun (pairedArmStep start_age sex 1 r dec cDraws mDraws) fuel year s).qalys ≤
        (armRun (pairedArmStep start_age sex hr r dec cDraws mDraws) fuel year s).qalys ∧
      (armRun (pairedArmStep start_age sex 1 r dec cDraws mDraws) fuel year s).life_years ≤
        (armRun (pairedArmStep start_age sex hr r dec cDraws mDraws) fuel year s).life_years := by
  intro fuel
  induction fuel with
  | zero => intro year s; exact ⟨le_refl _, le_refl _⟩
  | succ f ih =>
    intro year s
    by_cases hal : s.state.alive = false
    · simp only [armRun]
      rw [if_pos hal, if_pos hal]
      exact ⟨le_refl _, le_refl _⟩
    · simp only [armRun]
      rw [if_neg hal, if_neg hal]
      rcases pairedArmStep_compare start_age sex hr r dec cDraws mDraws hhr year s with
        heq | ⟨hdead, hq, hly⟩
      · rw [heq]
        exact ih (year + 1) _
      · rw [armRun_dead _ f (year + 1) _ hdead]
        have hacc := armRun_acc start_age sex hr r dec cDraws mDraws hdisc f (year + 1)
          (pairedArmStep start_age sex hr r dec cDraws mDraws year s)
        exact ⟨le_trans (le_of_eq hq.symm) hacc.1, le_trans (le_of_eq hly.symm) hacc.2⟩

/-- Pointwise dominance of the protective arm over the baseline arm in life
years alone: holds for every discount rate, since the yearly life-year
increment is the constant 1. -/
theorem armRun_compare_ly (start_age : ℤ) (sex : Sex) (hr r : ℝ) (dec : Cond → ℝ)
    (cDraws : Cond → ℕ → ℝ) (mDraws : ℕ → ℝ) (hhr : hr ≤ 1) :
    ∀ (fuel year : ℕ) (s : ArmState),
      (armRun (pairedArmStep start_age sex 1 r dec cDraws mDraws) fuel year s).life_years ≤
        (armRun (pairedArmStep start_age sex hr r dec cDraws mDraws) fuel year s).life_years := by
  intro fuel
  induction fuel with
  | zero => intro year s; exact le_refl _
  | succ f ih =>
    intro year s
    by_cases hal : s.state.alive = false
    · simp only [armRun]
      rw [if_pos hal, if_pos hal]
    · simp only [armRun]
      rw [if_neg hal, if_neg hal]
      rcases pairedArmStep_compare start_age sex hr r dec cDraws mDraws hhr year s with
        heq | ⟨hdead, _, hly⟩
      · rw [heq]
        exact ih (year + 1) _
      · rw [armRun_dead _ f (year + 1) _ hdead]
        exact le_trans (le_of_eq hly.symm)
          (armRun_acc_ly start_age sex hr r dec cDraws mDraws f (year + 1) _)

/-!
## Claim C4
-/

/-- Claim C4: the paired Markov simulation reuses one pre-generated draw
stream per condition and one for mortality in both arms; with
`intervention_hr = 1.0` the intervention arm is the very same computation as
the baseline arm, so the whole result coincides and the per-pair QALY
difference is exactly zero for every draw stream, age, sex, discount rate,
horizon, decrement table and initial state. -/
theorem C4_paired_identity_at_hr_one (start_age : ℤ) (sex : Sex) (r : ℝ) (max_age : ℤ)
    (dec : Cond → ℝ) (cDraws : Cond → ℕ → ℝ) (mDraws : ℕ → ℝ) (init : Option HealthState) :
    (simulate_lifetime_paired start_age sex 1 r max_age dec cDraws mDraws init).2 =
      (simulate_lifetime_paired start_age sex 1 r max_age dec cDraws mDraws init).1 ∧
    (simulate_lifetime_paired start_age sex 1 r max_age dec cDraws mDraws init).2.qalys -
      (simulate_lifetime_paired start_age sex 1 r max_age dec cDraws mDraws init).1.qalys = 0 := by
  refine ⟨rfl, ?_⟩
  simp [simulate_lifetime_paired]

/-!
## Claim C10 (corrected)
-/

/-- Claim C10 (amended): with shared draws and `intervention_hr ≤ 1`, the
intervention arm of `simulate_lifetime_paired` accrues at least as many life
years as the baseline arm for every discount rate; and if additionally the
discount rate exceeds -1 — so that every yearly discount factor is positive —
at least as many QALYs.  (The original claim, quantified over *every* discount
rate, is refuted in its QALY half by `C10_counterexample`.) -/
theorem C10_paired_dominance (start_age : ℤ) (sex : Sex) (hr r : ℝ) (max_age : ℤ)
    (dec : Cond → ℝ) (cDraws : Cond → ℕ → ℝ) (mDraws : ℕ → ℝ) (init : Option HealthState)
    (hhr : hr ≤ 1) :
    (simulate_lifetime_paired start_age sex hr r max_age dec cDraws mDraws init).1.life_years ≤
      (simulate_lifetime_paired start_age sex hr r max_age dec cDraws mDraws init).2.life_years ∧
    (-1 < r →
      (simulate_lifetime_paired start_age sex hr r max_age dec cDraws mDraws init).1.qalys ≤
        (simulate_lifetime_paired start_age sex hr r max_age dec cDraws mDraws init).2.qalys) := by
  constructor
  · cases init with
    | none =>
      exact armRun_compare_ly start_age sex hr r dec cDraws mDraws hhr
        (max_age - start_age).toNat 0
        ⟨⟨true, false, false, false, false, false, false⟩, 0, 0, fun _ => none⟩
    | some i =>
      exact armRun_compare_ly start_age sex hr r dec cDraws mDraws hhr
        (max_age - start_age).toNat 0
        ⟨⟨true, i.diabetes, i.hypertension, i.heart_disease, i.stroke, i.cancer, i.arthritis⟩,
          0, 0, fun _ => none⟩
  · intro hdisc
    cases init with
    | none =>
      exact (armRun_compare start_age sex hr r dec cDraws mDraws hhr hdisc
        (max_age - start_age).toNat 0
        ⟨⟨true, false, false, false, false, false, false⟩, 0, 0, fun _ => none⟩).1
    | some i =>
      exact (armRun_compare start_age sex hr r dec cDraws mDraws hhr hdisc
        (max_age - start_age).toNat 0
        ⟨⟨true, i.diabetes, i.hypertension, i.heart_disease, i.stroke, i.cancer, i.arthritis⟩,
          0, 0, fun _ => none⟩).1

/-- Witness for C10 at concrete inputs (HR 1/2, undiscounted): both the
life-years conclusion and the discount-rate-conditional QALY conclusion. -/
theorem C10_paired_dominance_witness :
    (simulate_lifetime_paired 60 .male (1 / 2) 0 100 (fun _ => 0) (fun _ _ => 1 / 2)
        (fun _ => 1 / 2) none).1.life_years ≤
      (simulate_lifetime_paired 60 .male (1 / 2) 0 100 (fun _ => 0) (fun _ _ => 1 / 2)
        (fun _ => 1 / 2) none).2.life_years ∧
    (simulate_lifetime_paired 60 .male (1 / 2) 0 100 (fun _ => 0) (fun _ _ => 1 / 2)
        (fun _ => 1 / 2) none).1.qalys ≤
      (simulate_lifetime_paired 60 .male (1 / 2) 0 100 (fun _ => 0) (fun _ _ => 1 / 2)
        (fun _ => 1 / 2) none).2.qalys :=
  have h := C10_paired_dominance 60 .male (1 / 2) 0 100 (fun _ => 0) (fun _ _ => 1 / 2)
    (fun _ => 1 / 2) none (by norm_num)
  ⟨h.1, h.2 (by norm_num)⟩

/-!
## Concrete evaluation helpers
-/

/-- For ages at or above the last anchor (95) the quality weight is exactly
the last anchor value 0.65. -/
theorem quality_ge_95 (age : ℝ) (h : 95 ≤ age) : get_quality_weight age = 0.65 := by
  rw [get_quality_weight, QUALITY_WEIGHTS, interpolate_table]
  rw [if_neg (by push_neg; linarith)]
  iterate 7 rw [interpAux_ge (not_lt.2 (by linarith))]
  rfl

/-- On the last male block [95, 100) the interpolated mortality rate lies
between the two bracketing anchor values. -/
theorem mortality_male_block_95 (age : ℝ) (h1 : 95 ≤ age) (h2 : age < 100) :
    get_mortality_rate age .male ∈ Set.Icc (0.19853 : ℝ) 0.275 := by
  rw [get_mortality_rate, show CDC_LIFE_TABLE .male = CDC_LIFE_TABLE_male from rfl,
    CDC_LIFE_TABLE_male, interpolate_table]
  rw [if_neg (by push_neg; linarith)]
  iterate 20 rw [interpAux_ge (not_lt.2 (by linarith))]
  rw [interpAux_lt (by linarith)]
  exact loglinKernel_mem (by norm_num) (by linarith) h2 (by norm_num) (by norm_num)

/-- Every interpolated incidence rate lies between 0 and the largest anchor
value over all six tables (0.0472). -/
theorem incidence_mem (c : Cond) (age : ℝ) :
    get_incidence_rate c age ∈ Set.Icc (0 : ℝ) 0.0472 := by
  cases c <;>
  · rw [get_incidence_rate]
    refine interpolate_table_prop
      (fun la lv ua uv a hx1 hx2 hl hu => linKernel_mem hx1 hx2 hl hu)
      _ _ _ _ _ (by norm_num) ?_
    intro p hp
    fin_cases hp <;> norm_num

/-- An incidence check with a draw above every incidence rate leaves the state
unchanged. -/
theorem condUpdate_noop (cDraws : Cond → ℕ → ℝ) (age : ℝ) (ageZ : ℤ) (year : ℕ)
    (p : HealthState × (Cond → Option ℤ)) (c : Cond)
    (h : ¬ cDraws c year < get_incidence_rate c age) :
    condUpdate cDraws age ageZ year p c = p := by
  unfold condUpdate
  rw [if_neg (fun hc => h hc.2)]

/-- With a zero decrement table the quality decrement vanishes for every
state. -/
theorem decrement_zero (s : HealthState) : s.get_quality_decrement (fun _ => 0) = 0 := by
  simp [HealthState.get_quality_decrement]

/-- A state with no active conditions has mortality multiplier 1. -/
theorem no_condition_multiplier (a : Bool) :
    (⟨a, false, false, false, false, false, false⟩ : HealthState).get_mortality_multiplier = 1 := by
  simp [HealthState.get_mortality_multiplier]

/-!
## Claim C10 counterexample
-/

/-- Claim C10 counterexample: with discount rate -2 (a value the claim's
universal quantification over discount rates includes), the yearly discount
factor alternates in sign; at start age 98 with intervention HR 1/2 and draws
that kill the baseline arm in the first year but let the intervention arm
survive both remaining years, the intervention arm accrues 0.65 - 0.65 = 0
QALYs while the baseline arm accrues 0.65 — the intervention arm's QALYs are
strictly *smaller*, refuting the claimed pointwise dominance. -/
theorem C10_counterexample :
    (1 : ℝ) / 2 ≤ 1 ∧
    (simulate_lifetime_paired 98 .male (1 / 2) (-2) 100 (fun _ => 0) (fun _ _ => 0.999)
        (fun y => if y = 0 then (0.15 : ℝ) else 0.999) none).2.qalys <
      (simulate_lifetime_paired 98 .male (1 / 2) (-2) 100 (fun _ => 0) (fun _ _ => 0.999)
        (fun y => if y = 0 then (0.15 : ℝ) else 0.999) none).1.qalys := by
  have hnoop : ∀ (age : ℝ) (ageZ : ℤ) (year : ℕ) (p : HealthState × (Cond → Option ℤ))
      (c : Cond), condUpdate (fun _ _ => 0.999) age ageZ year p c = p := by
    intro age ageZ year p c
    refine condUpdate_noop _ _ _ _ _ _ ?_
    have := (incidence_mem c age).2
    intro hlt
    norm_num at hlt
    linarith
  have h98 := mortality_male_block_95 98 (by norm_num) (by norm_num)
  have h99 := mortality_male_block_95 99 (by norm_num) (by norm_num)
  have hq98 : get_quality_weight (98 : ℝ) = 0.65 := quality_ge_95 98 (by norm_num)
  have hq99 : get_quality_weight (99 : ℝ) = 0.65 := quality_ge_95 99 (by norm_num)
  obtain ⟨h98a, h98b⟩ := h98
  obtain ⟨h99a, h99b⟩ := h99
  set md : ℕ → ℝ := fun y => if y = 0 then (0.15 : ℝ) else 0.999 with hmd
  set s0 : ArmState := ⟨⟨true, false, false, false, false, false, false⟩, 0, 0, fun _ => none⟩
    with hs0
  -- baseline arm: dies in year 0SO after accruing 0.65
  have eB0 : pairedArmStep 98 .male 1 (-2) (fun _ => 0) (fun _ _ => 0.999) md 0 s0 =
      ⟨⟨false, false, false, false, false, false, false⟩, 0.65, 1, fun _ => none⟩ := by
    simp only [pairedArmStep, hnoop, hs0]
    norm_num [decrement_zero, no_condition_multiplier, hq98, hmd]
    linarith
  -- intervention arm year 0: survives, accrues 0.65
  have eI0 : pairedArmStep 98 .male (1 / 2) (-2) (fun _ => 0) (fun _ _ => 0.999) md 0 s0 =
      ⟨⟨true, false, false, false, false, false, false⟩, 0.65, 1, fun _ => none⟩ := by
    simp only [pairedArmStep, hnoop, hs0]
    norm_num [decrement_zero, no_condition_multiplier, hq98, hmd]
    linarith
  -- intervention arm year 1: discount factor is -1, accrual cancels year 0
  have eI1 : (pairedArmStep 98 .male (1 / 2) (-2) (fun _ => 0) (fun _ _ => 0.999) md 1
      ⟨⟨true, false, false, false, false, false, false⟩, 0.65, 1, fun _ => none⟩).qalys = 0 := by
    simp only [pairedArmStep, hnoop]
    norm_num [decrement_zero, hq99]
  refine ⟨by norm_num, ?_⟩
  show (armRun (pairedArmStep 98 .male (1 / 2) (-2) (fun _ => 0) (fun _ _ => 0.999) md)
      ((100 - 98 : ℤ)).toNat 0 s0).qalys <
    (armRun (pairedArmStep 98 .male 1 (-2) (fun _ => 0) (fun _ _ => 0.999) md)
      ((100 - 98 : ℤ)).toNat 0 s0).qalys
  have hn : ((100 - 98 : ℤ)).toNat = 2 := rfl
  rw [hn]
  have hB : (armRun (pairedArmStep 98 .male 1 (-2) (fun _ => 0) (fun _ _ => 0.999) md)
      2 0 s0).qalys = 0.65 := by
    simp only [armRun]
    rw [if_neg (by simp [hs0]), eB0]
    rw [if_pos rfl]
  have hI : (armRun (pairedArmStep 98 .male (1 / 2) (-2) (fun _ => 0) (fun _ _ => 0.999) md)
      2 0 s0).qalys = 0 := by
    simp only [armRun]
    rw [if_neg (by simp [hs0]), eI0, if_neg (by simp)]
    exact eI1
  rw [hB, hI]
  norm_num

/-!
## Neutral-hazard-ratio loop correspondences (claim C2)
-/

/-- With neutral pathway hazard ratios the intervention-year mortality equals
the baseline mortality, so the intervention loop of `calculate` tracks the
full-computation baseline loop exactly: equal survival curves, equal break
decisions, equal accumulated QALYs. -/
theorem pair_tracks_full_baseline (m : LifecycleModel) :
    ∀ (fuel year : ℕ) (s1 : BaselineState) (s2 : PairState),
      s2.bsurv = s1.surv → s2.isurv = s1.surv → s2.iq = s1.qalys →
      (runBreak (m.pairStep ⟨1, 1, 1⟩) (fun s => s.bsurv < 0.001 ∧ s.isurv < 0.001)
          fuel year s2).iq =
        (runBreak m.fullBaselineStep (fun s => s.surv < 0.001) fuel year s1).qalys := by
  intro fuel
  induction fuel with
  | zero => intro year s1 s2 _ _ h3; exact h3
  | succ f ih =>
    intro year s1 s2 h1 h2 h3
    have hsum :
        (get_cause_fraction ((m.start_age : ℝ) + year)).cvd * 1 +
          (get_cause_fraction ((m.start_age : ℝ) + year)).cancer * 1 +
          (get_cause_fraction ((m.start_age : ℝ) + year)).other * 1 = 1 := by
      have := (get_cause_fraction_props ((m.start_age : ℝ) + year)).2.2.2
      linarith
    have hb : (m.pairStep ⟨1, 1, 1⟩ year s2).bsurv = (m.fullBaselineStep year s1).surv := by
      simp only [LifecycleModel.pairStep, LifecycleModel.fullBaselineStep, h1]
    have hi : (m.pairStep ⟨1, 1, 1⟩ year s2).isurv = (m.fullBaselineStep year s1).surv := by
      simp only [LifecycleModel.pairStep, LifecycleModel.fullBaselineStep, h2, mul_one]
      rw [(get_cause_fraction_props ((m.start_age : ℝ) + year)).2.2.2, mul_one]
    have hq : (m.pairStep ⟨1, 1, 1⟩ year s2).iq = (m.fullBaselineStep year s1).qalys := by
      simp only [LifecycleModel.pairStep, LifecycleModel.fullBaselineStep, h2, h3]
    simp only [runBreak]
    by_cases hstop : (m.fullBaselineStep year s1).surv < 0.001
    · rw [if_pos (by rw [hb, hi]; exact ⟨hstop, hstop⟩), if_pos hstop]
      exact hq
    · rw [if_neg (by rw [hb, hi]; exact fun hc => hstop hc.1), if_neg hstop]
      exact ih (year + 1) _ _ hb hi hq

/-- With neutral hazard ratios, a unit multiplier and an interpolated mortality
rate that never reaches the 0.99 cap, the intervention loop of `calculate`
also tracks the loop of the precompute script `calculate_remaining_qalys`. -/
theorem pair_tracks_script (m : LifecycleModel) (hmult : m.baseline_mortality_multiplier = 1) :
    ∀ (fuel year : ℕ) (s1 : ScriptState) (s2 : PairState),
      s2.bsurv = s1.surv → s2.isurv = s1.surv → s2.iq = s1.qalys →
      (runBreak (m.pairStep ⟨1, 1, 1⟩) (fun s => s.bsurv < 0.001 ∧ s.isurv < 0.001)
          fuel year s2).iq =
        (runBreak (remainingQalysStep m.start_age m.sex m.discount_rate)
          (fun s => s.surv < 0.001) fuel year s1).qalys := by
  intro fuel
  induction fuel with
  | zero => intro year s1 s2 _ _ h3; exact h3
  | succ f ih =>
    intro year s1 s2 h1 h2 h3
    have hsum :
        (get_cause_fraction ((m.start_age : ℝ) + year)).cvd * 1 +
          (get_cause_fraction ((m.start_age : ℝ) + year)).cancer * 1 +
          (get_cause_fraction ((m.start_age : ℝ) + year)).other * 1 = 1 := by
      have := (get_cause_fraction_props ((m.start_age : ℝ) + year)).2.2.2
      linarith
    have hqx : baselineQx m ((m.start_age : ℝ) + year) =
        get_mortality_rate ((m.start_age : ℝ) + year) m.sex := by
      rw [baselineQx, hmult, mul_one]
      exact min_eq_left (le_trans (get_mortality_rate_mem _ _).2 (by norm_num))
    have hb : (m.pairStep ⟨1, 1, 1⟩ year s2).bsurv =
        (remainingQalysStep m.start_age m.sex m.discount_rate year s1).surv := by
      simp only [LifecycleModel.pairStep, remainingQalysStep, h1, hqx]
    have hi : (m.pairStep ⟨1, 1, 1⟩ year s2).isurv =
        (remainingQalysStep m.start_age m.sex m.discount_rate year s1).surv := by
      simp only [LifecycleModel.pairStep, remainingQalysStep, h2, mul_one, hqx]
      rw [(get_cause_fraction_props ((m.start_age : ℝ) + year)).2.2.2, mul_one]
    have hq : (m.pairStep ⟨1, 1, 1⟩ year s2).iq =
        (remainingQalysStep m.start_age m.sex m.discount_rate year s1).qalys := by
      simp only [LifecycleModel.pairStep, remainingQalysStep, h2, h3]
    simp only [runBreak]
    by_cases hstop : (remainingQalysStep m.start_age m.sex m.discount_rate year s1).surv < 0.001
    · rw [if_pos (by rw [hb, hi]; exact ⟨hstop, hstop⟩), if_pos hstop]
      exact hq
    · rw [if_neg (by rw [hb, hi]; exact fun hc => hstop hc.1), if_neg hstop]
      exact ih (year + 1) _ _ hb hi hq

/-- Rounding to three decimals moves a value by at most half a thousandth. -/
theorem round3_close (x : ℝ) : |round3 x - x| ≤ 1 / 2000 := by
  unfold round3
  have h := abs_sub_round (1000 * x)
  rw [abs_sub_comm] at h
  have heq : ((round (1000 * x) : ℤ) : ℝ) / 1000 - x =
      (((round (1000 * x) : ℤ) : ℝ) - 1000 * x) / 1000 := by ring
  rw [heq, abs_div, abs_of_pos (by norm_num : (0 : ℝ) < 1000)]
  rw [div_le_div_iff₀ (by norm_num) (by norm_num)]
  linarith

/-!
## Claim C2
-/

/-- Claim C2: for every start age, sex, discount rate and baseline mortality
multiplier (and whether or not the precomputed-baseline fast path is
enabled), `LifecycleModel.calculate` on neutral pathway hazard ratios
(1, 1, 1) returns a QALY gain of absolute value below 0.01.  On the full
computation path the gain is exactly zero; on the fast path it equals the
3-decimal rounding error of the stored baseline, at most 1/2000. -/
theorem C2_neutral_hrs_zero_gain (start_age : ℤ) (sex : Sex) (r mult : ℝ) (up : Bool) :
    |((⟨start_age, sex, r, 100, up, mult⟩ : LifecycleModel).calculate ⟨1, 1, 1⟩).qaly_gain| <
      0.01 := by
  set m : LifecycleModel := ⟨start_age, sex, r, 100, up, mult⟩ with hm
  rw [LifecycleModel.calculate]
  cases hpre : m.precomputedBaselineQalys with
  | none =>
    have hfull := pair_tracks_full_baseline m (m.max_age - m.start_age).toNat 0
      ⟨1, 0, 0⟩ ⟨1, 1, 0, 0, 0, 0, 0⟩ rfl rfl rfl
    simp only [LifecycleResult.qaly_gain, hfull]
    norm_num
  | some v =>
    have hcond := hpre
    rw [LifecycleModel.precomputedBaselineQalys] at hcond
    split_ifs at hcond with hc
    rw [get_precomputed_baseline_qalys] at hcond
    split_ifs at hcond with hage
    injection hcond with hv
    have hscript := pair_tracks_script m hc.2.2 (m.max_age - m.start_age).toNat 0
      ⟨1, 0⟩ ⟨1, 1, 0, 0, 0, 0, 0⟩ rfl rfl rfl
    have hfuel : (m.max_age - m.start_age).toNat = ((100 : ℤ) - m.start_age).toNat := rfl
    have hV : (runBreak (remainingQalysStep m.start_age m.sex m.discount_rate)
          (fun s => s.surv < 0.001) (m.max_age - m.start_age).toNat 0 ⟨1, 0⟩).qalys =
        calculate_remaining_qalys m.start_age m.sex 0.03 100 := by
      rw [calculate_remaining_qalys, hc.2.1, hfuel]
    simp only [LifecycleResult.qaly_gain]
    rw [← hv, hscript, hV]
    have hround := round3_close (calculate_remaining_qalys m.start_age m.sex 0.03 100)
    rw [abs_sub_comm]
    calc |round3 (calculate_remaining_qalys m.start_age m.sex 0.03 100) -
          calculate_remaining_qalys m.start_age m.sex 0.03 100| ≤ 1 / 2000 := hround
    _ < 0.01 := by norm_num

/-!
## Claim C1 (code bug): the intervention-year mortality of
`LifecycleModel.calculate` is not clamped
-/

/-- The male life-table lookup at the anchor age 95 returns the anchor value
exactly. -/
theorem mortality_male_95 : get_mortality_rate 95 Sex.male = 0.19853 := by
  rw [get_mortality_rate, show CDC_LIFE_TABLE .male = CDC_LIFE_TABLE_male from rfl,
    CDC_LIFE_TABLE_male, interpolate_table]
  rw [if_neg (by norm_num)]
  iterate 20 rw [interpAux_ge (by norm_num)]
  rw [interpAux_lt (by norm_num)]
  exact loglinKernel_left _ _ _ _ (by norm_num) (by norm_num)

/-- For ages at or above the last anchor (90) the cause fractions are exactly
the last anchor entry. -/
theorem cause_fraction_ge_90 (age : ℝ) (h : 90 ≤ age) :
    get_cause_fraction age = ⟨0.45, 0.12, 0.43⟩ := by
  rw [get_cause_fraction, CAUSE_FRACTIONS, interpolate_table]
  rw [if_neg (by push_neg; linarith)]
  iterate 5 rw [interpAux_ge (not_lt.2 (by linarith))]
  rfl

/-- Claim C1, failing input: `LifecycleModel(start_age=95, sex="male",
baseline_mortality_multiplier=10)` with harmful pathway hazard ratios
(2, 2, 2).  The baseline rate is capped at 0.99 as claimed, but the
intervention-year mortality probability that `calculate` feeds into the
intervention survival update is 0.99 * 2 = 1.98 > 1 — unclamped — and the
intervention survival becomes negative after the very first year. -/
theorem C1_intervention_qx_unclamped :
    baselineQx ⟨95, .male, 0.03, 100, true, 10⟩ 95 = 0.99 ∧
    interventionQx ⟨95, .male, 0.03, 100, true, 10⟩ ⟨2, 2, 2⟩ 95 = 1.98 ∧
    (LifecycleModel.pairStep ⟨95, .male, 0.03, 100, true, 10⟩ ⟨2, 2, 2⟩ 0
      ⟨1, 1, 0, 0, 0, 0, 0⟩).isurv < 0 := by
  have hbq : baselineQx ⟨95, .male, 0.03, 100, true, 10⟩ 95 = 0.99 := by
    rw [baselineQx]
    norm_num [mortality_male_95]
  have hcf : get_cause_fraction (95 : ℝ) = ⟨0.45, 0.12, 0.43⟩ :=
    cause_fraction_ge_90 95 (by norm_num)
  have hiq : interventionQx ⟨95, .male, 0.03, 100, true, 10⟩ ⟨2, 2, 2⟩ 95 = 1.98 := by
    rw [interventionQx]
    rw [hcf, hbq]
    norm_num
  refine ⟨hbq, hiq, ?_⟩
  have hage : ((95 : ℤ) : ℝ) + ((0 : ℕ) : ℝ) = (95 : ℝ) := by norm_num
  simp only [LifecycleModel.pairStep, hage, hcf, hbq]
  norm_num

/-!
## Male life-table block brackets (ages 40-95), for claim C3
-/

/-- On the male block [40, 45) the interpolated mortality rate lies
between the two bracketing anchor values. -/
theorem mortality_male_block_40 (age : ℝ) (h1 : 40 ≤ age) (h2 : age < 45) :
    get_mortality_rate age .male ∈ Set.Icc (0.00261 : ℝ) 0.00369 := by
  rw [get_mortality_rate, show CDC_LIFE_TABLE .male = CDC_LIFE_TABLE_male from rfl,
    CDC_LIFE_TABLE_male, interpolate_table]
  rw [if_neg (by push_neg; linarith)]
  iterate 9 rw [interpAux_ge (not_lt.2 (by linarith))]
  rw [interpAux_lt (by linarith)]
  exact loglinKernel_mem (by norm_num) (by linarith) h2 (by norm_num) (by norm_num)

/-- On the male block [45, 50) the interpolated mortality rate lies
between the two bracketing anchor values. -/
theorem mortality_male_block_45 (age : ℝ) (h1 : 45 ≤ age) (h2 : age < 50) :
    get_mortality_rate age .male ∈ Set.Icc (0.00369 : ℝ) 0.00547 := by
  rw [get_mortality_rate, show CDC_LIFE_TABLE .male = CDC_LIFE_TABLE_male from rfl,
    CDC_LIFE_TABLE_male, interpolate_table]
  rw [if_neg (by push_neg; linarith)]
  iterate 10 rw [interpAux_ge (not_lt.2 (by linarith))]
  rw [interpAux_lt (by linarith)]
  exact loglinKernel_mem (by norm_num) (by linarith) h2 (by norm_num) (by norm_num)

/-- On the male block [50, 55) the interpolated mortality rate lies
between the two bracketing anchor values. -/
theorem mortality_male_block_50 (age : ℝ) (h1 : 50 ≤ age) (h2 : age < 55) :
    get_mortality_rate age .male ∈ Set.Icc (0.00547 : ℝ) 0.00832 := by
  rw [get_mortality_rate, show CDC_LIFE_TABLE .male = CDC_LIFE_TABLE_male from rfl,
    CDC_LIFE_TABLE_male, interpolate_table]
  rw [if_neg (by push_neg; linarith)]
  iterate 11 rw [interpAux_ge (not_lt.2 (by linarith))]
  rw [interpAux_lt (by linarith)]
  exact loglinKernel_mem (by norm_num) (by linarith) h2 (by norm_num) (by norm_num)

/-- On the male block [55, 60) the interpolated mortality rate lies
between the two bracketing anchor values. -/
theorem mortality_male_block_55 (age : ℝ) (h1 : 55 ≤ age) (h2 : age < 60) :
    get_mortality_rate age .male ∈ Set.Icc (0.00832 : ℝ) 0.01206 := by
  rw [get_mortality_rate, show CDC_LIFE_TABLE .male = CDC_LIFE_TABLE_male from rfl,
    CDC_LIFE_TABLE_male, interpolate_table]
  rw [if_neg (by push_neg; linarith)]
  iterate 12 rw [interpAux_ge (not_lt.2 (by linarith))]
  rw [interpAux_lt (by linarith)]
  exact loglinKernel_mem (by norm_num) (by linarith) h2 (by norm_num) (by norm_num)

/-- On the male block [60, 65) the interpolated mortality rate lies
between the two bracketing anchor values. -/
theorem mortality_male_block_60 (age : ℝ) (h1 : 60 ≤ age) (h2 : age < 65) :
    get_mortality_rate age .male ∈ Set.Icc (0.01206 : ℝ) 0.01697 := by
  rw [get_mortality_rate, show CDC_LIFE_TABLE .male = CDC_LIFE_TABLE_male from rfl,
    CDC_LIFE_TABLE_male, interpolate_table]
  rw [if_neg (by push_neg; linarith)]
  iterate 13 rw [interpAux_ge (not_lt.2 (by linarith))]
  rw [interpAux_lt (by linarith)]
  exact loglinKernel_mem (by norm_num) (by linarith) h2 (by norm_num) (by norm_num)

/-- On the male block [65, 70) the interpolated mortality rate lies
between the two bracketing anchor values. -/
theorem mortality_male_block_65 (age : ℝ) (h1 : 65 ≤ age) (h2 : age < 70) :
    get_mortality_rate age .male ∈ Set.Icc (0.01697 : ℝ) 0.02467 := by
  rw [get_mortality_rate, show CDC_LIFE_TABLE .male = CDC_LIFE_TABLE_male from rfl,
    CDC_LIFE_TABLE_male, interpolate_table]
  rw [if_neg (by push_neg; linarith)]
  iterate 14 rw [interpAux_ge (not_lt.2 (by linarith))]
  rw [interpAux_lt (by linarith)]
  exact loglinKernel_mem (by norm_num) (by linarith) h2 (by norm_num) (by norm_num)

/-- On the male block [70, 75) the interpolated mortality rate lies
between the two bracketing anchor values. -/
theorem mortality_male_block_70 (age : ℝ) (h1 : 70 ≤ age) (h2 : age < 75) :
    get_mortality_rate age .male ∈ Set.Icc (0.02467 : ℝ) 0.03711 := by
  rw [get_mortality_rate, show CDC_LIFE_TABLE .male = CDC_LIFE_TABLE_male from rfl,
    CDC_LIFE_TABLE_male, interpolate_table]
  rw [if_neg (by push_neg; linarith)]
  iterate 15 rw [interpAux_ge (not_lt.2 (by linarith))]
  rw [interpAux_lt (by linarith)]
  exact loglinKernel_mem (by norm_num) (by linarith) h2 (by norm_num) (by norm_num)

/-- On the male block [75, 80) the interpolated mortality rate lies
between the two bracketing anchor values. -/
theorem mortality_male_block_75 (age : ℝ) (h1 : 75 ≤ age) (h2 : age < 80) :
    get_mortality_rate age .male ∈ Set.Icc (0.03711 : ℝ) 0.05640 := by
  rw [get_mortality_rate, show CDC_LIFE_TABLE .male = CDC_LIFE_TABLE_male from rfl,
    CDC_LIFE_TABLE_male, interpolate_table]
  rw [if_neg (by push_neg; linarith)]
  iterate 16 rw [interpAux_ge (not_lt.2 (by linarith))]
  rw [interpAux_lt (by linarith)]
  exact loglinKernel_mem (by norm_num) (by linarith) h2 (by norm_num) (by norm_num)

/-- On the male block [80, 85) the interpolated mortality rate lies
between the two bracketing anchor values. -/
theorem mortality_male_block_80 (age : ℝ) (h1 : 80 ≤ age) (h2 : age < 85) :
    get_mortality_rate age .male ∈ Set.Icc (0.05640 : ℝ) 0.08737 := by
  rw [get_mortality_rate, show CDC_LIFE_TABLE .male = CDC_LIFE_TABLE_male from rfl,
    CDC_LIFE_TABLE_male, interpolate_table]
  rw [if_neg (by push_neg; linarith)]
  iterate 17 rw [interpAux_ge (not_lt.2 (by linarith))]
  rw [interpAux_lt (by linarith)]
  exact loglinKernel_mem (by norm_num) (by linarith) h2 (by norm_num) (by norm_num)

/-- On the male block [85, 90) the interpolated mortality rate lies
between the two bracketing anchor values. -/
theorem mortality_male_block_85 (age : ℝ) (h1 : 85 ≤ age) (h2 : age < 90) :
    get_mortality_rate age .male ∈ Set.Icc (0.08737 : ℝ) 0.13510 := by
  rw [get_mortality_rate, show CDC_LIFE_TABLE .male = CDC_LIFE_TABLE_male from rfl,
    CDC_LIFE_TABLE_male, interpolate_table]
  rw [if_neg (by push_neg; linarith)]
  iterate 18 rw [interpAux_ge (not_lt.2 (by linarith))]
  rw [interpAux_lt (by linarith)]
  exact loglinKernel_mem (by norm_num) (by linarith) h2 (by norm_num) (by norm_num)

/-- On the male block [90, 95) the interpolated mortality rate lies
between the two bracketing anchor values. -/
theorem mortality_male_block_90 (age : ℝ) (h1 : 90 ≤ age) (h2 : age < 95) :
    get_mortality_rate age .male ∈ Set.Icc (0.13510 : ℝ) 0.19853 := by
  rw [get_mortality_rate, show CDC_LIFE_TABLE .male = CDC_LIFE_TABLE_male from rfl,
    CDC_LIFE_TABLE_male, interpolate_table]
  rw [if_neg (by push_neg; linarith)]
  iterate 19 rw [interpAux_ge (not_lt.2 (by linarith))]
  rw [interpAux_lt (by linarith)]
  exact loglinKernel_mem (by norm_num) (by linarith) h2 (by norm_num) (by norm_num)

/-- Per-year upper bound: for the first 60 years of a 40-year-old male the
interpolated mortality rate is at most `1 - cbN y / 100000`. -/
theorem qx_le_cb (y : ℕ) (hy : y < 60) :
    get_mortality_rate ((40 : ℝ) + y) Sex.male ≤ 1 - (cbN y : ℝ) / 100000 := by
  by_cases h0 : y < 5
  · have hd : y / 5 = 0 := by omega
    have hcb : cbN y = 99631 := by rw [cbN, hd]; rfl
    have hyl : (0 : ℝ) ≤ (y : ℝ) := by exact_mod_cast (show (0:ℕ) ≤ y by omega)
    have hyu : (y : ℝ) < 5 := by exact_mod_cast (show y < 5 by omega)
    have hb := (mortality_male_block_40 (40 + y) (by linarith) (by linarith)).2
    rw [hcb]
    norm_num
    linarith
  by_cases h1 : y < 10
  · have hd : y / 5 = 1 := by omega
    have hcb : cbN y = 99453 := by rw [cbN, hd]; rfl
    have hyl : (5 : ℝ) ≤ (y : ℝ) := by exact_mod_cast (show (5:ℕ) ≤ y by omega)
    have hyu : (y : ℝ) < 10 := by exact_mod_cast (show y < 10 by omega)
    have hb := (mortality_male_block_45 (40 + y) (by linarith) (by linarith)).2
    rw [hcb]
    norm_num
    linarith
  by_cases h2 : y < 15
  · have hd : y / 5 = 2 := by omega
    have hcb : cbN y = 99168 := by rw [cbN, hd]; rfl
    have hyl : (10 : ℝ) ≤ (y : ℝ) := by exact_mod_cast (show (10:ℕ) ≤ y by omega)
    have hyu : (y : ℝ) < 15 := by exact_mod_cast (show y < 15 by omega)
    have hb := (mortality_male_block_50 (40 + y) (by linarith) (by linarith)).2
    rw [hcb]
    norm_num
    linarith
  by_cases h3 : y < 20
  · have hd : y / 5 = 3 := by omega
    have hcb : cbN y = 98794 := by rw [cbN, hd]; rfl
    have hyl : (15 : ℝ) ≤ (y : ℝ) := by exact_mod_cast (show (15:ℕ) ≤ y by omega)
    have hyu : (y : ℝ) < 20 := by exact_mod_cast (show y < 20 by omega)
    have hb := (mortality_male_block_55 (40 + y) (by linarith) (by linarith)).2
    rw [hcb]
    norm_num
    linarith
  by_cases h4 : y < 25
  · have hd : y / 5 = 4 := by omega
    have hcb : cbN y = 98303 := by rw [cbN, hd]; rfl
    have hyl : (20 : ℝ) ≤ (y : ℝ) := by exact_mod_cast (show (20:ℕ) ≤ y by omega)
    have hyu : (y : ℝ) < 25 := by exact_mod_cast (show y < 25 by omega)
    have hb := (mortality_male_block_60 (40 + y) (by linarith) (by linarith)).2
    rw [hcb]
    norm_num
    linarith
  by_cases h5 : y < 30
  · have hd : y / 5 = 5 := by omega
    have hcb : cbN y = 97533 := by rw [cbN, hd]; rfl
    have hyl : (25 : ℝ) ≤ (y : ℝ) := by exact_mod_cast (show (25:ℕ) ≤ y by omega)
    have hyu : (y : ℝ) < 30 := by exact_mod_cast (show y < 30 by omega)
    have hb := (mortality_male_block_65 (40 + y) (by linarith) (by linarith)).2
    rw [hcb]
    norm_num
    linarith
  by_cases h6 : y < 35
  · have hd : y / 5 = 6 := by omega
    have hcb : cbN y = 96289 := by rw [cbN, hd]; rfl
    have hyl : (30 : ℝ) ≤ (y : ℝ) := by exact_mod_cast (show (30:ℕ) ≤ y by omega)
    have hyu : (y : ℝ) < 35 := by exact_mod_cast (show y < 35 by omega)
    have hb := (mortality_male_block_70 (40 + y) (by linarith) (by linarith)).2
    rw [hcb]
    norm_num
    linarith
  by_cases h7 : y < 40
  · have hd : y / 5 = 7 := by omega
    have hcb : cbN y = 94360 := by rw [cbN, hd]; rfl
    have hyl : (35 : ℝ) ≤ (y : ℝ) := by exact_mod_cast (show (35:ℕ) ≤ y by omega)
    have hyu : (y : ℝ) < 40 := by exact_mod_cast (show y < 40 by omega)
    have hb := (mortality_male_block_75 (40 + y) (by linarith) (by linarith)).2
    rw [hcb]
    norm_num
    linarith
  by_cases h8 : y < 45
  · have hd : y / 5 = 8 := by omega
    have hcb : cbN y = 91263 := by rw [cbN, hd]; rfl
    have hyl : (40 : ℝ) ≤ (y : ℝ) := by exact_mod_cast (show (40:ℕ) ≤ y by omega)
    have hyu : (y : ℝ) < 45 := by exact_mod_cast (show y < 45 by omega)
    have hb := (mortality_male_block_80 (40 + y) (by linarith) (by linarith)).2
    rw [hcb]
    norm_num
    linarith
  by_cases h9 : y < 50
  · have hd : y / 5 = 9 := by omega
    have hcb : cbN y = 86490 := by rw [cbN, hd]; rfl
    have hyl : (45 : ℝ) ≤ (y : ℝ) := by exact_mod_cast (show (45:ℕ) ≤ y by omega)
    have hyu : (y : ℝ) < 50 := by exact_mod_cast (show y < 50 by omega)
    have hb := (mortality_male_block_85 (40 + y) (by linarith) (by linarith)).2
    rw [hcb]
    norm_num
    linarith
  by_cases h10 : y < 55
  · have hd : y / 5 = 10 := by omega
    have hcb : cbN y = 80147 := by rw [cbN, hd]; rfl
    have hyl : (50 : ℝ) ≤ (y : ℝ) := by exact_mod_cast (show (50:ℕ) ≤ y by omega)
    have hyu : (y : ℝ) < 55 := by exact_mod_cast (show y < 55 by omega)
    have hb := (mortality_male_block_90 (40 + y) (by linarith) (by linarith)).2
    rw [hcb]
    norm_num
    linarith
  · have hd : y / 5 = 11 := by omega
    have hcb : cbN y = 72500 := by rw [cbN, hd]; rfl
    have hyl : (55 : ℝ) ≤ (y : ℝ) := by exact_mod_cast (show (55:ℕ) ≤ y by omega)
    have hyu : (y : ℝ) < 60 := by exact_mod_cast (show y < 60 by omega)
    have hb := (mortality_male_block_95 (40 + y) (by linarith) (by linarith)).2
    rw [hcb]
    norm_num
    linarith

/-- The scaled survival lower bound is positive up to year 60. -/
theorem survNum_pos : ∀ y : ℕ, y ≤ 60 → 0 < survNum y := by decide

/-- The scaled survival lower bound stays above 0.001 up to year 60. -/
theorem survNum_large : ∀ y : ℕ, y ≤ 60 → 100000 ^ y ≤ 1000 * survNum y := by decide

/-- For the claim C3 instance (start age 40, male, default discount, unit
multiplier, protective hazard ratios (0.75, 0.87, 0.90)): the intervention
loop of `calculate` and the loop of the precompute script never hit the
early-termination thresholds within the 60-year horizon, every yearly QALY
difference is nonnegative with a positive total mortality-rate reduction, and
therefore the three accumulated pathway contributions sum exactly to the
intervention QALYs minus the script's baseline QALYs. -/
theorem pair_contrib_tracks_script :
    ∀ (fuel y : ℕ) (s1 : ScriptState) (s2 : PairState), fuel + y = 60 →
      s2.bsurv = s1.surv → s2.bsurv ≤ s2.isurv → 0 ≤ s2.bsurv →
      (survNum y : ℝ) ≤ s1.surv * 100000 ^ y →
      s2.ccvd + s2.ccan + s2.coth = s2.iq - s1.qalys →
      (runBreak ((⟨40, .male, 0.03, 100, true, 1⟩ : LifecycleModel).pairStep
            ⟨0.75, 0.87, 0.90⟩) (fun s => s.bsurv < 0.001 ∧ s.isurv < 0.001) fuel y s2).ccvd +
        (runBreak ((⟨40, .male, 0.03, 100, true, 1⟩ : LifecycleModel).pairStep
            ⟨0.75, 0.87, 0.90⟩) (fun s => s.bsurv < 0.001 ∧ s.isurv < 0.001) fuel y s2).ccan +
        (runBreak ((⟨40, .male, 0.03, 100, true, 1⟩ : LifecycleModel).pairStep
            ⟨0.75, 0.87, 0.90⟩) (fun s => s.bsurv < 0.001 ∧ s.isurv < 0.001) fuel y s2).coth =
      (runBreak ((⟨40, .male, 0.03, 100, true, 1⟩ : LifecycleModel).pairStep
            ⟨0.75, 0.87, 0.90⟩) (fun s => s.bsurv < 0.001 ∧ s.isurv < 0.001) fuel y s2).iq -
        (runBreak (remainingQalysStep 40 .male 0.03) (fun s => s.surv < 0.001)
          fuel y s1).qalys := by
  intro fuel
  induction fuel with
  | zero => intro y s1 s2 _ _ _ _ _ h5; exact h5
  | succ f ih =>
    intro y s1 s2 hfy h1 h2 h3 h4 h5
    have hy60 : y < 60 := by omega
    set qx := get_mortality_rate (((40 : ℤ) : ℝ) + (y : ℝ)) Sex.male with hqxd
    set cf := get_cause_fraction (((40 : ℤ) : ℝ) + (y : ℝ)) with hcfd
    set q := get_quality_weight (((40 : ℤ) : ℝ) + (y : ℝ)) with hqd
    set d := 1 / (1 + (0.03 : ℝ)) ^ y with hdd
    have hqmem : qx ∈ Set.Icc (0.00009 : ℝ) 0.275 := get_mortality_rate_mem _ _
    have hqub : qx ≤ 1 - (cbN y : ℝ) / 100000 := by
      have hx := qx_le_cb y hy60
      have hA2 : ((40 : ℤ) : ℝ) + (y : ℝ) = (40 : ℝ) + (y : ℝ) := by norm_num
      rw [hqxd, hA2]
      exact hx
    have hcfp := get_cause_fraction_props (((40 : ℤ) : ℝ) + (y : ℝ))
    have hqw : q ∈ Set.Icc (0.65 : ℝ) 0.92 := get_quality_weight_mem _
    have hdpos : (0 : ℝ) < d := by rw [hdd]; positivity
    have hbqx : baselineQx ⟨40, .male, 0.03, 100, true, 1⟩ (((40 : ℤ) : ℝ) + (y : ℝ)) = qx := by
      show min (qx * 1) 0.99 = qx
      rw [mul_one]
      exact min_eq_left (by linarith only [hqmem.2])
    -- the six step-field equations
    have eb : ((⟨40, .male, 0.03, 100, true, 1⟩ : LifecycleModel).pairStep ⟨0.75, 0.87, 0.90⟩
        y s2).bsurv =
        s2.bsurv * (1 - baselineQx ⟨40, .male, 0.03, 100, true, 1⟩ (((40 : ℤ) : ℝ) + (y : ℝ))) :=
      rfl
    have ei : ((⟨40, .male, 0.03, 100, true, 1⟩ : LifecycleModel).pairStep ⟨0.75, 0.87, 0.90⟩
        y s2).isurv =
        s2.isurv * (1 - baselineQx ⟨40, .male, 0.03, 100, true, 1⟩ (((40 : ℤ) : ℝ) + (y : ℝ)) *
          (cf.cvd * 0.75 + cf.cancer * 0.87 + cf.other * 0.90)) := rfl
    have eiq : ((⟨40, .male, 0.03, 100, true, 1⟩ : LifecycleModel).pairStep ⟨0.75, 0.87, 0.90⟩
        y s2).iq = s2.iq + s2.isurv * q * d := rfl
    have ec1 : ((⟨40, .male, 0.03, 100, true, 1⟩ : LifecycleModel).pairStep ⟨0.75, 0.87, 0.90⟩
        y s2).ccvd =
        if 0 < s2.isurv * q * d - s2.bsurv * q * d ∧
            0 < cf.cvd * (1 - 0.75) + cf.cancer * (1 - 0.87) + cf.other * (1 - 0.90) then
          s2.ccvd + (s2.isurv * q * d - s2.bsurv * q * d) * (cf.cvd * (1 - 0.75)) /
            (cf.cvd * (1 - 0.75) + cf.cancer * (1 - 0.87) + cf.other * (1 - 0.90))
        else s2.ccvd := rfl
    have ec2 : ((⟨40, .male, 0.03, 100, true, 1⟩ : LifecycleModel).pairStep ⟨0.75, 0.87, 0.90⟩
        y s2).ccan =
        if 0 < s2.isurv * q * d - s2.bsurv * q * d ∧
            0 < cf.cvd * (1 - 0.75) + cf.cancer * (1 - 0.87) + cf.other * (1 - 0.90) then
          s2.ccan + (s2.isurv * q * d - s2.bsurv * q * d) * (cf.cancer * (1 - 0.87)) /
            (cf.cvd * (1 - 0.75) + cf.cancer * (1 - 0.87) + cf.other * (1 - 0.90))
        else s2.ccan := rfl
    have ec3 : ((⟨40, .male, 0.03, 100, true, 1⟩ : LifecycleModel).pairStep ⟨0.75, 0.87, 0.90⟩
        y s2).coth =
        if 0 < s2.isurv * q * d - s2.bsurv * q * d ∧
            0 < cf.cvd * (1 - 0.75) + cf.cancer * (1 - 0.87) + cf.other * (1 - 0.90) then
          s2.coth + (s2.isurv * q * d - s2.bsurv * q * d) * (cf.other * (1 - 0.90)) /
            (cf.cvd * (1 - 0.75) + cf.cancer * (1 - 0.87) + cf.other * (1 - 0.90))
        else s2.coth := rfl
    have es : (remainingQalysStep 40 .male 0.03 y s1).surv = s1.surv * (1 - qx) := rfl
    have esq : (remainingQalysStep 40 .male 0.03 y s1).qalys = s1.qalys + s1.surv * q * d := rfl
    -- invariant preservation
    obtain ⟨hc1, hc2, hc3, hc4⟩ := hcfp
    rw [← hcfd] at hc1 hc2 hc3 hc4
    have hb' : ((⟨40, .male, 0.03, 100, true, 1⟩ : LifecycleModel).pairStep ⟨0.75, 0.87, 0.90⟩
        y s2).bsurv = (remainingQalysStep 40 .male 0.03 y s1).surv := by
      rw [eb, es, hbqx, h1]
    have hS1 : cf.cvd * 0.75 + cf.cancer * 0.87 + cf.other * 0.90 ≤ 1 := by
      linarith only [hc4, hc1.1, hc2.1, hc3.1]
    have hS0 : 0 ≤ cf.cvd * 0.75 + cf.cancer * 0.87 + cf.other * 0.90 := by
      linarith only [hc1.1, hc2.1, hc3.1]
    have hi' : ((⟨40, .male, 0.03, 100, true, 1⟩ : LifecycleModel).pairStep ⟨0.75, 0.87, 0.90⟩
        y s2).bsurv ≤ ((⟨40, .male, 0.03, 100, true, 1⟩ : LifecycleModel).pairStep
          ⟨0.75, 0.87, 0.90⟩ y s2).isurv := by
      rw [eb, ei, hbqx]
      have hqxS : qx * (cf.cvd * 0.75 + cf.cancer * 0.87 + cf.other * 0.90) ≤ qx * 1 :=
        mul_le_mul_of_nonneg_left hS1 (by linarith only [hqmem.1])
      refine mul_le_mul h2 (by linarith only [hqxS]) (by linarith only [hqmem.2])
        (by linarith only [h2, h3])
    have hpos' : 0 ≤ ((⟨40, .male, 0.03, 100, true, 1⟩ : LifecycleModel).pairStep
        ⟨0.75, 0.87, 0.90⟩ y s2).bsurv := by
      rw [eb, hbqx]
      exact mul_nonneg h3 (by linarith only [hqmem.2])
    have hsn : survNum (y + 1) = survNum y * cbN y := rfl
    have hsurv' : (survNum (y + 1) : ℝ) ≤
        (remainingQalysStep 40 .male 0.03 y s1).surv * 100000 ^ (y + 1) := by
      rw [es, hsn]
      push_cast
      have hfac : (cbN y : ℝ) ≤ (1 - qx) * 100000 := by linarith only [hqub]
      have hnn : (0 : ℝ) ≤ (survNum y : ℝ) := Nat.cast_nonneg _
      have hkey : (survNum y : ℝ) * (cbN y : ℝ) ≤
          (s1.surv * 100000 ^ y) * ((1 - qx) * 100000) :=
        mul_le_mul h4 hfac (Nat.cast_nonneg _) (le_trans hnn h4)
      calc (survNum y : ℝ) * (cbN y : ℝ) ≤ (s1.surv * 100000 ^ y) * ((1 - qx) * 100000) := hkey
      _ = s1.surv * (1 - qx) * 100000 ^ (y + 1) := by rw [pow_succ]; ring
    have h001 : (0.001 : ℝ) ≤ (remainingQalysStep 40 .male 0.03 y s1).surv := by
      have hP : (0 : ℝ) < 100000 ^ (y + 1) := by positivity
      have hlarge : ((100000 : ℕ) ^ (y + 1) : ℝ) ≤ ((1000 * survNum (y + 1) : ℕ) : ℝ) := by
        exact_mod_cast survNum_large (y + 1) (by omega)
      push_cast at hlarge
      nlinarith only [hP, hlarge, hsurv']
    have hstop1 : ¬ (remainingQalysStep 40 .male 0.03 y s1).surv < 0.001 := not_lt.2 h001
    have hstop2 : ¬ (((⟨40, .male, 0.03, 100, true, 1⟩ : LifecycleModel).pairStep
        ⟨0.75, 0.87, 0.90⟩ y s2).bsurv < 0.001 ∧
        ((⟨40, .male, 0.03, 100, true, 1⟩ : LifecycleModel).pairStep
          ⟨0.75, 0.87, 0.90⟩ y s2).isurv < 0.001) := by
      intro hc
      rw [hb'] at hc
      exact hstop1 hc.1
    have hdiffnn : 0 ≤ s2.isurv * q * d - s2.bsurv * q * d := by
      have : s2.isurv * q * d - s2.bsurv * q * d = (s2.isurv - s2.bsurv) * (q * d) := by ring
      rw [this]
      exact mul_nonneg (by linarith only [h2]) (mul_nonneg (by linarith only [hqw.1]) hdpos.le)
    have hT : 0 < cf.cvd * (1 - 0.75) + cf.cancer * (1 - 0.87) + cf.other * (1 - 0.90) := by
      linarith only [hc1.1, hc2.1, hc3.1]
    have hcontrib' : ((⟨40, .male, 0.03, 100, true, 1⟩ : LifecycleModel).pairStep
        ⟨0.75, 0.87, 0.90⟩ y s2).ccvd +
        ((⟨40, .male, 0.03, 100, true, 1⟩ : LifecycleModel).pairStep
          ⟨0.75, 0.87, 0.90⟩ y s2).ccan +
        ((⟨40, .male, 0.03, 100, true, 1⟩ : LifecycleModel).pairStep
          ⟨0.75, 0.87, 0.90⟩ y s2).coth =
        ((⟨40, .male, 0.03, 100, true, 1⟩ : LifecycleModel).pairStep
          ⟨0.75, 0.87, 0.90⟩ y s2).iq -
        (remainingQalysStep 40 .male 0.03 y s1).qalys := by
      rw [ec1, ec2, ec3, eiq, esq]
      by_cases hdp : 0 < s2.isurv * q * d - s2.bsurv * q * d
      · rw [if_pos ⟨hdp, hT⟩, if_pos ⟨hdp, hT⟩, if_pos ⟨hdp, hT⟩]
        have hTne : cf.cvd * (1 - 0.75) + cf.cancer * (1 - 0.87) + cf.other * (1 - 0.90) ≠ 0 :=
          ne_of_gt hT
        have hsplit : (s2.isurv * q * d - s2.bsurv * q * d) * (cf.cvd * (1 - 0.75)) /
              (cf.cvd * (1 - 0.75) + cf.cancer * (1 - 0.87) + cf.other * (1 - 0.90)) +
            (s2.isurv * q * d - s2.bsurv * q * d) * (cf.cancer * (1 - 0.87)) /
              (cf.cvd * (1 - 0.75) + cf.cancer * (1 - 0.87) + cf.other * (1 - 0.90)) +
            (s2.isurv * q * d - s2.bsurv * q * d) * (cf.other * (1 - 0.90)) /
              (cf.cvd * (1 - 0.75) + cf.cancer * (1 - 0.87) + cf.other * (1 - 0.90)) =
            s2.isurv * q * d - s2.bsurv * q * d := by
          field_simp
          ring
        have hrw : s2.bsurv * q * d = s1.surv * q * d := by rw [h1]
        calc s2.ccvd + (s2.isurv * q * d - s2.bsurv * q * d) * (cf.cvd * (1 - 0.75)) /
              (cf.cvd * (1 - 0.75) + cf.cancer * (1 - 0.87) + cf.other * (1 - 0.90)) +
            (s2.ccan + (s2.isurv * q * d - s2.bsurv * q * d) * (cf.cancer * (1 - 0.87)) /
              (cf.cvd * (1 - 0.75) + cf.cancer * (1 - 0.87) + cf.other * (1 - 0.90))) +
            (s2.coth + (s2.isurv * q * d - s2.bsurv * q * d) * (cf.other * (1 - 0.90)) /
              (cf.cvd * (1 - 0.75) + cf.cancer * (1 - 0.87) + cf.other * (1 - 0.90))) =
            (s2.ccvd + s2.ccan + s2.coth) +
              ((s2.isurv * q * d - s2.bsurv * q * d) * (cf.cvd * (1 - 0.75)) /
                (cf.cvd * (1 - 0.75) + cf.cancer * (1 - 0.87) + cf.other * (1 - 0.90)) +
              (s2.isurv * q * d - s2.bsurv * q * d) * (cf.cancer * (1 - 0.87)) /
                (cf.cvd * (1 - 0.75) + cf.cancer * (1 - 0.87) + cf.other * (1 - 0.90)) +
              (s2.isurv * q * d - s2.bsurv * q * d) * (cf.other * (1 - 0.90)) /
                (cf.cvd * (1 - 0.75) + cf.cancer * (1 - 0.87) + cf.other * (1 - 0.90))) := by
              ring
        _ = (s2.iq - s1.qalys) + (s2.isurv * q * d - s2.bsurv * q * d) := by rw [h5, hsplit]
        _ = s2.iq + s2.isurv * q * d - (s1.qalys + s1.surv * q * d) := by rw [← hrw]; ring
      · have hdz : s2.isurv * q * d - s2.bsurv * q * d = 0 := le_antisymm (not_lt.1 hdp) hdiffnn
        rw [if_neg (fun hc => hdp hc.1), if_neg (fun hc => hdp hc.1),
          if_neg (fun hc => hdp hc.1)]
        rw [h1] at hdz
        linarith only [h5, hdz]
    simp only [runBreak]
    rw [if_neg hstop2, if_neg hstop1]
    exact ih (y + 1) _ _ (by omega) hb' hi' hpos' hsurv' hcontrib'


/-- C3 (amended): for the instance named in the claim — start age 40, male, the
default 3% discount rate, no baseline mortality adjustment and pathway hazard
ratios (0.75, 0.87, 0.90) — the sum of the three pathway contributions returned
by `calculate` differs from the returned `qaly_gain` by at most the 3-decimal
rounding error of the stored precomputed baseline (1/2000), well within the
0.01 tolerance.  The claim's universally quantified form fails
(`C3_counterexample`): contribution years require a positive QALY difference
and a positive total mortality reduction, which harmful hazard ratios combined
with the uncapped intervention mortality can defeat while the QALY gain stays
far from the (zero) contribution sum. -/
theorem C3_amended :
    |((⟨40, .male, 0.03, 100, true, 1⟩ : LifecycleModel).calculate
        ⟨0.75, 0.87, 0.90⟩).pathway_cvd +
      ((⟨40, .male, 0.03, 100, true, 1⟩ : LifecycleModel).calculate
        ⟨0.75, 0.87, 0.90⟩).pathway_cancer +
      ((⟨40, .male, 0.03, 100, true, 1⟩ : LifecycleModel).calculate
        ⟨0.75, 0.87, 0.90⟩).pathway_other -
      ((⟨40, .male, 0.03, 100, true, 1⟩ : LifecycleModel).calculate
        ⟨0.75, 0.87, 0.90⟩).qaly_gain| < 0.01 := by
  have hpre : (⟨40, .male, 0.03, 100, true, 1⟩ : LifecycleModel).precomputedBaselineQalys =
      some (round3 (calculate_remaining_qalys 40 .male 0.03 100)) := by
    simp only [LifecycleModel.precomputedBaselineQalys, get_precomputed_baseline_qalys]
    norm_num
  have h60 : ((100 : ℤ) - 40).toNat = 60 := rfl
  have hkey := pair_contrib_tracks_script 60 0 ⟨1, 0⟩ ⟨1, 1, 0, 0, 0, 0, 0⟩ rfl rfl
    (le_refl _) (by norm_num) (by norm_num [survNum]) (by norm_num)
  have hV : calculate_remaining_qalys 40 .male 0.03 100 =
      (runBreak (remainingQalysStep 40 .male 0.03) (fun s => s.surv < 0.001)
        60 0 ⟨1, 0⟩).qalys := rfl
  simp only [LifecycleModel.calculate, hpre, h60]
  rw [hkey, ← hV]
  rw [show ∀ t v : ℝ, t - v - (t - round3 v) = round3 v - v from fun t v => by ring]
  exact lt_of_le_of_lt (round3_close _) (by norm_num)

/-- C3 (counterexample): for start age 95, male, baseline mortality multiplier
1000 and pathway hazard ratios (2, 2, 2), `calculate` distributes no pathway
contributions (no year has both a positive QALY difference and a positive
total mortality reduction) while the returned `qaly_gain` is about -0.036, so
the contribution sum misses the QALY gain by far more than 0.01. -/
theorem C3_counterexample :
    0.01 < |((⟨95, .male, 0.03, 100, true, 1000⟩ : LifecycleModel).calculate
        ⟨2, 2, 2⟩).pathway_cvd +
      ((⟨95, .male, 0.03, 100, true, 1000⟩ : LifecycleModel).calculate
        ⟨2, 2, 2⟩).pathway_cancer +
      ((⟨95, .male, 0.03, 100, true, 1000⟩ : LifecycleModel).calculate
        ⟨2, 2, 2⟩).pathway_other -
      ((⟨95, .male, 0.03, 100, true, 1000⟩ : LifecycleModel).calculate
        ⟨2, 2, 2⟩).qaly_gain| := by
  have h95 := mortality_male_block_95 95 (by norm_num) (by norm_num)
  have h96 := mortality_male_block_95 96 (by norm_num) (by norm_num)
  have h97 := mortality_male_block_95 97 (by norm_num) (by norm_num)
  have hq95 : get_quality_weight (95 : ℝ) = 0.65 := quality_ge_95 95 (by norm_num)
  have hq96 : get_quality_weight (96 : ℝ) = 0.65 := quality_ge_95 96 (by norm_num)
  have hq97 : get_quality_weight (97 : ℝ) = 0.65 := quality_ge_95 97 (by norm_num)
  have hcf95 : get_cause_fraction (95 : ℝ) = ⟨0.45, 0.12, 0.43⟩ :=
    cause_fraction_ge_90 95 (by norm_num)
  have hcf96 : get_cause_fraction (96 : ℝ) = ⟨0.45, 0.12, 0.43⟩ :=
    cause_fraction_ge_90 96 (by norm_num)
  have hcf97 : get_cause_fraction (97 : ℝ) = ⟨0.45, 0.12, 0.43⟩ :=
    cause_fraction_ge_90 97 (by norm_num)
  have hmin95 : min (get_mortality_rate (95 : ℝ) .male * 1000) 0.99 = 0.99 :=
    min_eq_right (by linarith only [h95.1])
  have hmin96 : min (get_mortality_rate (96 : ℝ) .male * 1000) 0.99 = 0.99 :=
    min_eq_right (by linarith only [h96.1])
  have hmin97 : min (get_mortality_rate (97 : ℝ) .male * 1000) 0.99 = 0.99 :=
    min_eq_right (by linarith only [h97.1])
  norm_num at hmin95 hmin96 hmin97
  have hpre : (⟨95, .male, 0.03, 100, true, 1000⟩ : LifecycleModel).precomputedBaselineQalys =
      none := by
    simp only [LifecycleModel.precomputedBaselineQalys]
    norm_num
  have eB0 : (⟨95, .male, 0.03, 100, true, 1000⟩ : LifecycleModel).fullBaselineStep 0
      ⟨1, 0, 0⟩ = ⟨0.01, 0.65, 1⟩ := by
    simp only [LifecycleModel.fullBaselineStep, baselineQx]
    norm_num [hmin95, hq95]
  have eB1 : (⟨95, .male, 0.03, 100, true, 1000⟩ : LifecycleModel).fullBaselineStep 1
      ⟨0.01, 0.65, 1⟩ = ⟨0.0001, 0.65 + 0.0065 / 1.03, 1.01⟩ := by
    simp only [LifecycleModel.fullBaselineStep, baselineQx]
    norm_num [hmin96, hq96]
  have eBL : (runBreak (⟨95, .male, 0.03, 100, true, 1000⟩ : LifecycleModel).fullBaselineStep
      (fun s => s.surv < 0.001) 5 0 ⟨1, 0, 0⟩).qalys = 0.65 + 0.0065 / 1.03 := by
    simp only [runBreak]
    rw [eB0, if_neg (by norm_num), eB1, if_pos (by norm_num)]
  have eP0 : (⟨95, .male, 0.03, 100, true, 1000⟩ : LifecycleModel).pairStep ⟨2, 2, 2⟩ 0
      ⟨1, 1, 0, 0, 0, 0, 0⟩ = ⟨0.01, -0.98, 0.65, 1, 0, 0, 0⟩ := by
    simp only [LifecycleModel.pairStep, baselineQx]
    norm_num [hmin95, hq95, hcf95]
  have eP1 : (⟨95, .male, 0.03, 100, true, 1000⟩ : LifecycleModel).pairStep ⟨2, 2, 2⟩ 1
      ⟨0.01, -0.98, 0.65, 1, 0, 0, 0⟩ =
      ⟨0.0001, 0.9604, 0.65 - 0.637 / 1.03, 0.02, 0, 0, 0⟩ := by
    simp only [LifecycleModel.pairStep, baselineQx]
    norm_num [hmin96, hq96, hcf96]
  have eP2 : (⟨95, .male, 0.03, 100, true, 1000⟩ : LifecycleModel).pairStep ⟨2, 2, 2⟩ 2
      ⟨0.0001, 0.9604, 0.65 - 0.637 / 1.03, 0.02, 0, 0, 0⟩ =
      ⟨0.000001, -0.941192, 0.65 - 0.637 / 1.03 + 0.62426 / 1.0609, 0.9804, 0, 0, 0⟩ := by
    simp only [LifecycleModel.pairStep, baselineQx]
    norm_num [hmin97, hq97, hcf97]
  have ePair : runBreak
      ((⟨95, .male, 0.03, 100, true, 1000⟩ : LifecycleModel).pairStep ⟨2, 2, 2⟩)
      (fun s => s.bsurv < 0.001 ∧ s.isurv < 0.001) 5 0 ⟨1, 1, 0, 0, 0, 0, 0⟩ =
      ⟨0.000001, -0.941192, 0.65 - 0.637 / 1.03 + 0.62426 / 1.0609, 0.9804, 0, 0, 0⟩ := by
    simp only [runBreak]
    rw [eP0, if_neg (by norm_num), eP1, if_neg (by norm_num), eP2, if_pos (by norm_num)]
  have h5n : ((100 : ℤ) - 95).toNat = 5 := rfl
  simp only [LifecycleModel.calculate, hpre, h5n]
  rw [ePair, eBL]
  show (0.01 : ℝ) < |(0 : ℝ) + 0 + 0 -
    ((0.65 - 0.637 / 1.03 + 0.62426 / 1.0609) - (0.65 + 0.0065 / 1.03))|
  rw [show ((0 : ℝ) + 0 + 0 -
      ((0.65 - 0.637 / 1.03 + 0.62426 / 1.0609) - (0.65 + 0.0065 / 1.03))) =
      0.6435 / 1.03 - 0.62426 / 1.0609 from by ring]
  rw [abs_of_pos (by norm_num)]
  norm_num

end Optiqal
